import Mathlib

/-!
# Helmsman desired-state validation (`state.go`)

A shallow embedding of `state.validate`, `isValidCert` and `tillerTLSEnabled`
from `src/state.go`, followed by the properties established about them.

Conventions of the embedding

* A Go `map[string]V` is a `GoMap V`: `none` is the nil map, `some l` holds the
  entries in the order in which a `range` loop visits them.  Go leaves that
  order unspecified, so a property that has to hold for every order is stated
  for every list.
* The library calls `url.ParseRequestURI` and `os.Stat`, the function
  `getKubeContext`, the package-level variables `nsOverride` and `s`, and the
  per-release checker `validateRelease` live outside `state.go`; they are the
  fields of `Env`.
* `validate` has effects besides its return value: it writes to the
  certificate map (shared with the caller), prints log lines, calls the
  resolver and the per-release checker, and may end the process.  The
  embedding returns an `Outcome` holding the result, the document as the
  caller sees it afterwards, and the trace of those effects.
-/

namespace Helmsman

/-! ## Go maps -/

/-- Go `map[string]V`: `none` is the nil map, `some l` lists the entries in
range order. -/
abbrev GoMap (V : Type) := Option (List (String × V))

namespace GoMap

variable {V : Type}

/-- Entries visited by `range m` (none for a nil map). -/
def entries : GoMap V → List (String × V)
  | none => []
  | some l => l

/-- Go `len(m)`. -/
def len (m : GoMap V) : Nat := m.entries.length

/-- Keys of the map, in range order. -/
def keys (m : GoMap V) : List String := m.entries.map Prod.fst

/-- Go `v, ok := m[k]`: `some v` when the key is present. -/
def lookup (m : GoMap V) (k : String) : Option V := List.lookup k m.entries

/-- Assignment `m[k] = v` on the entry list: the value stored under an existing
key is replaced where it stands, a new key is added. -/
def setEntry (k : String) (v : V) : List (String × V) → List (String × V)
  | [] => [(k, v)]
  | (k', v') :: rest => if k' = k then (k, v) :: rest else (k', v') :: setEntry k v rest

/-- Go `m[k] = v`.  (On a nil map Go panics; `validate` only assigns to a map it
is ranging over, which is not nil.) -/
def set (m : GoMap V) (k : String) (v : V) : GoMap V := m.map (setEntry k v)

/-- A Go map holds each key once. -/
def WF (m : GoMap V) : Prop := m.keys.Nodup

/-- Whether a map holds each key once can be decided by evaluation. -/
instance decidableWF (m : GoMap V) : Decidable m.WF :=
  inferInstanceAs (Decidable m.keys.Nodup)

end GoMap

/-! ## Data model -/

/-- The type `config` (state.go, lines 12-21). -/
structure config where
  KubeContext : String
  Username : String
  Password : String
  ClusterURI : String
  ServiceAccount : String
  StorageBackend : String
  SlackWebhook : String
  ReverseDelete : Bool
deriving DecidableEq, Repr

/-- Go zero value `config{}`. -/
def config.zero : config := ⟨"", "", "", "", "", "", "", false⟩

/-- The type `repo` (state.go, lines 33-37). -/
structure repo where
  Username : String
  Password : String
  Url : String
deriving DecidableEq, Repr

/-- Modelled from the spec: the type `namespace` is declared outside `state.go`
(the name is capitalised here, `namespace` being a keyword).  It carries the
two engine intents and the five credential references that `validate` and
`tillerTLSEnabled` read. -/
structure Namespace where
  InstallTiller : Bool
  UseTiller : Bool
  CaCert : String
  TillerCert : String
  TillerKey : String
  ClientCert : String
  ClientKey : String
deriving DecidableEq, Repr

/-- Go zero value `namespace{}`, which indexing a map yields for a missing key. -/
def Namespace.zero : Namespace := ⟨false, false, "", "", "", "", ""⟩

/-- Modelled from the spec: the type `release` is declared outside `state.go`.
`validate` passes releases on without reading them; the spec names the release
name and the target namespace as the fields of the uniqueness key. -/
structure release where
  Name : String
  Namespace : String
deriving DecidableEq, Repr

/-- The type `state` (state.go, lines 24-31).  `Apps` maps to `*release`, a
pointer that may be nil. -/
structure state where
  Metadata : GoMap String
  Certificates : GoMap String
  Settings : config
  Namespaces : GoMap Namespace
  HelmRepos : GoMap repo
  Apps : GoMap (Option release)

/-- The uniqueness registry `map[string]map[string]bool` built in `validate`
(line 168). -/
abbrev Registry := GoMap (GoMap Bool)

/-- Everything `state.go` uses but does not define. -/
structure Env where
  /-- `url.ParseRequestURI v` returns a nil error. -/
  ParseRequestURI : String → Bool
  /-- `os.Stat v` returns a nil error. -/
  Stat : String → Bool
  /-- Value returned by `getKubeContext()`. -/
  getKubeContext : Bool
  /-- Package-level variable `nsOverride`. -/
  nsOverride : String
  /-- Package-level variable `s`, the process-wide state read by
  `tillerTLSEnabled`. -/
  s : state
  /-- The per-release checker: its verdict, its message, and the registry as it
  leaves it (the registry is a map, which the checker may write to). -/
  validateRelease : String → Option release → Registry → state → (Bool × String) × Registry

/-- Effects of `validate` that a caller can observe besides the result. -/
inductive Event where
  /-- A line printed by `log.Println`. -/
  | log (line : String)
  /-- A call `isValidCert(value)`. -/
  | isValidCert (value : String)
  /-- A call `validateRelease(appLabel, ...)`. -/
  | validateRelease (appLabel : String)
deriving DecidableEq, Repr

/-- How a call of `validate` ends: it returns `(ok, msg)`, or the process ends
through `os.Exit(code)`. -/
inductive Result where
  | returned (ok : Bool) (msg : String)
  | exited (code : Int)
deriving DecidableEq, Repr

/-- What a call of `validate` leaves behind. -/
structure Outcome where
  result : Result
  /-- The document as the caller sees it after the call.  The receiver is a
  copy, but its maps are shared with the caller. -/
  s : state
  trace : List Event

/-- The call failed: it returned `false`. -/
def Result.failed : Result → Bool
  | .returned ok _ => !ok
  | .exited _ => false

/-! ## `isValidCert` and `tillerTLSEnabled` -/

/-- Go `strings.HasPrefix(s, p)`. -/
def HasPrefix (s p : String) : Bool := p.data.isPrefixOf s.data

/-- The function `isValidCert` (state.go, lines 180-187). -/
def isValidCert (e : Env) (value : String) : Bool × String :=
  let err1 := !e.ParseRequestURI value
  let err2 := !e.Stat value
  if err2 && (err1 || (!HasPrefix value "s3://" && !HasPrefix value "gs://")) then
    (false, "")
  else
    (true, value)

/-- The function `tillerTLSEnabled` (state.go, lines 191-198).  It reads the
namespace from the package-level `s`, not from the receiver of `validate`. -/
def tillerTLSEnabled (e : Env) (nsName : String) : Bool :=
  let ns := (e.s.Namespaces.lookup nsName).getD Namespace.zero
  if ns.CaCert ≠ "" ∧ ns.TillerCert ≠ "" ∧ ns.TillerKey ≠ "" ∧ ns.ClientCert ≠ "" ∧
      ns.ClientKey ≠ "" then
    true
  else
    false

/-! ## `validate`

`state.validate` (state.go, lines 41-177) runs five blocks in sequence, each of
which may return early.  Every block is embedded as a function yielding
`some msg` when it executes `return false, msg` and `none` when control falls
through to the next block, together with the effects it had. -/

/-- Block `else if s.Settings.ClusterURI != ""` of `validate` (lines 49-68). -/
def validateCluster (e : Env) (s : state) : Option String :=
  if s.Settings.ClusterURI ≠ "" then
    if !e.ParseRequestURI s.Settings.ClusterURI then
      some "ERROR: settings validation failed -- clusterURI must have a valid URL set in an env variable or passed directly. Either the env var is missing/empty or the URL is invalid."
    else if s.Settings.KubeContext = "" then
      some "ERROR: settings validation failed -- KubeContext must be provided if clusterURI is defined."
    else if s.Settings.Username = "" then
      some "ERROR: settings validation failed -- username must be provided if clusterURI is defined."
    else if s.Settings.Password = "" then
      some "ERROR: settings validation failed -- password must be provided if clusterURI is defined."
    else if s.Settings.Password = "" then
      some "ERROR: settings validation failed -- password should be set as an env variable. It is currently missing or empty. "
    else
      none
  else
    none

/-- Slack webhook block of `validate` (lines 70-75). -/
def validateSlack (e : Env) (s : state) : Option String :=
  if s.Settings.SlackWebhook ≠ "" then
    if !e.ParseRequestURI s.Settings.SlackWebhook then
      some "ERROR: settings validation failed -- slackWebhook must be a valid URL."
    else
      none
  else
    none

/-- Settings part of `validate` (lines 43-75).  The first two branches return;
the third is the cluster block, after which, as when no branch is taken,
control reaches the webhook block. -/
def validateSettings (e : Env) (s : state) : Option String :=
  if s.Settings = config.zero then
    some "ERROR: settings validation failed -- no settings table provided in state file."
  else if s.Settings.KubeContext = "" && !e.getKubeContext then
    some ("ERROR: settings validation failed -- you have not provided a " ++
      "kubeContext to use. Can't work without it. Sorry!")
  else
    match validateCluster e s with
    | some msg => some msg
    | none => validateSlack e s

/-- The message of both `MissingCertificates` returns (lines 86-87 and
102-103). -/
def missingCertificates : String :=
  "ERROR: certifications validation failed -- You want me to connect to your cluster for you " ++
    "but have not given me the cert/key to do so. Please add [caCrt] and [caKey] under Certifications. You might also need to provide [clientCrt]."

/-- Loop `for key, value := range s.Certificates` of `validate` (lines 89-95)
over the entries still to visit, with the certificate map as it stands.  Yields
the early return if any, the map afterwards and the resolver calls made. -/
def certLoop (e : Env) :
    List (String × String) → GoMap String → Option String × GoMap String × List Event
  | [], m => (none, m, [])
  | (key, value) :: rest, m =>
    let (r, path) := isValidCert e value
    if !r then
      (some ("ERROR: certifications validation failed -- [ " ++ key ++
        " ] must be a valid S3 or GCS bucket URL or a valid relative file path."),
        m, [Event.isValidCert value])
    else
      let (res, m', t) := certLoop e rest (m.set key path)
      (res, m', Event.isValidCert value :: t)

/-- Certificates part of `validate` (lines 77-105): the early return if any,
the certificate map afterwards and the effects. -/
def validateCertificates (e : Env) (s : state) : Option String × GoMap String × List Event :=
  if s.Certificates ≠ none ∧ s.Certificates.len ≠ 0 then
    let ok1 := decide (s.Settings.ClusterURI ≠ "")
    let ok2 := (s.Certificates.lookup "caCrt").isSome
    let ok3 := (s.Certificates.lookup "caKey").isSome
    if ok1 && (!ok2 || !ok3) then
      (some missingCertificates, s.Certificates, [])
    else if ok1 then
      certLoop e s.Certificates.entries s.Certificates
    else
      (none, s.Certificates,
        [Event.log "INFO: certificates provided but not needed. Skipping certificates validation."])
  else
    if s.Settings.ClusterURI ≠ "" then
      (some missingCertificates, s.Certificates, [])
    else
      (none, s.Certificates, [])

/-- Body of the loop `for k, ns := range s.Namespaces` of `validate` (lines
115-139) for one entry: the early return if any, and the effects.  The five
assignments `okN, ns.X = isValidCert(ns.X)` store into the loop variable `ns`,
a copy of the map entry, so the map itself is not written. -/
def namespaceBody (e : Env) (k : String) (ns : Namespace) : Option String × List Event :=
  if ns.InstallTiller && ns.UseTiller then
    (some ("ERROR: namespaces validation failed -- installTiller and useTiller can't be used together for namespace [ " ++ k ++ " ]"), [])
  else if ns.UseTiller then
    (none, [Event.log ("INFO: namespace validation -- a pre-installed Tiller is desired to be used in namespace [ " ++ k ++ " ].")])
  else if !ns.InstallTiller then
    (none, [Event.log ("INFO: namespace validation -- Tiller is NOT desired to be deployed in namespace [ " ++ k ++ " ].")])
  else if tillerTLSEnabled e k then
    let ok1 := (isValidCert e ns.CaCert).1
    let ok2 := (isValidCert e ns.ClientCert).1
    let ok3 := (isValidCert e ns.ClientKey).1
    let ok4 := (isValidCert e ns.TillerCert).1
    let ok5 := (isValidCert e ns.TillerKey).1
    let calls := [Event.isValidCert ns.CaCert, Event.isValidCert ns.ClientCert,
      Event.isValidCert ns.ClientKey, Event.isValidCert ns.TillerCert,
      Event.isValidCert ns.TillerKey]
    if !ok1 || !ok2 || !ok3 || !ok4 || !ok5 then
      (some ("ERROR: namespaces validation failed  -- some certs/keys are not valid for Tiller TLS in namespace [ " ++ k ++ " ]."), calls)
    else
      (none, calls ++ [Event.log ("INFO: namespace validation -- Tiller is desired to be deployed with TLS in namespace [ " ++ k ++ " ]. ")])
  else
    (none, [Event.log ("INFO: namespace validation -- Tiller is desired to be deployed WITHOUT TLS in namespace [ " ++ k ++ " ]. ")])

/-- Loop `for k, ns := range s.Namespaces` of `validate` (lines 114-140). -/
def namespaceLoop (e : Env) : List (String × Namespace) → Option String × List Event
  | [] => (none, [])
  | (k, ns) :: rest =>
    match namespaceBody e k ns with
    | (some msg, t) => (some msg, t)
    | (none, t) =>
      let (res, t') := namespaceLoop e rest
      (res, t ++ t')

/-- Namespaces part of `validate` (lines 107-143). -/
def validateNamespaces (e : Env) (s : state) : Option String × List Event :=
  if e.nsOverride = "" then
    if s.Namespaces = none ∨ s.Namespaces.len = 0 then
      (some ("ERROR: namespaces validation failed -- I need at least one namespace " ++
        "to work with!"), [])
    else
      namespaceLoop e s.Namespaces.entries
  else
    (none, [Event.log ("INFO: ns-override is used to override all namespaces with [ " ++
      e.nsOverride ++ " ] Skipping defined namespaces validation.")])

/-- Loop `for k, v := range s.HelmRepos` of `validate` (lines 150-159). -/
def repoLoop (e : Env) : List (String × repo) → Option String
  | [] => none
  | (k, v) :: rest =>
    if !e.ParseRequestURI v.Url then
      some ("ERROR: repos validation failed -- repo [" ++ k ++ " ] " ++ "must have a valid URL.")
    else
      repoLoop e rest

/-- Repositories part of `validate` (lines 145-159). -/
def validateRepos (e : Env) (s : state) : Option String :=
  if s.HelmRepos = none ∨ s.HelmRepos.len = 0 then
    some ("ERROR: repos validation failed -- I need at least one helm repo " ++ "to work with!")
  else
    repoLoop e s.HelmRepos.entries

/-- Loop `for appLabel, r := range s.Apps` of `validate` (lines 169-174), with
the registry `names` as the checker calls so far have left it. -/
def appLoop (e : Env) (s : state) :
    List (String × Option release) → Registry → Option String × List Event
  | [], _ => (none, [])
  | (appLabel, r) :: rest, names =>
    let ((result, errMsg), names') := e.validateRelease appLabel r names s
    if !result then
      (some ("ERROR: apps validation failed -- for app [" ++ appLabel ++ " ]. " ++ errMsg),
        [Event.validateRelease appLabel])
    else
      let (res, t) := appLoop e s rest names'
      (res, Event.validateRelease appLabel :: t)

/-- Apps part of `validate` (lines 161-176), up to the final
`return true, ""`. -/
def validateApps (e : Env) (s : state) : Result × List Event :=
  if s.Apps = none then
    (Result.exited 0,
      [Event.log "INFO: You have not specified any apps. I have nothing to do.  Horraayyy!."])
  else
    match appLoop e s s.Apps.entries (some []) with
    | (some msg, t) => (Result.returned false msg, t)
    | (none, t) => (Result.returned true "", t)

/-- The method `state.validate` (state.go, lines 41-177). -/
def validate (e : Env) (s : state) : Outcome :=
  match validateSettings e s with
  | some msg => ⟨Result.returned false msg, s, []⟩
  | none =>
    match validateCertificates e s with
    | (some msg, certs, t1) =>
      ⟨Result.returned false msg, { s with Certificates := certs }, t1⟩
    | (none, certs, t1) =>
      let s1 : state := { s with Certificates := certs }
      match validateNamespaces e s1 with
      | (some msg, t2) => ⟨Result.returned false msg, s1, t1 ++ t2⟩
      | (none, t2) =>
        match validateRepos e s1 with
        | some msg => ⟨Result.returned false msg, s1, t1 ++ t2⟩
        | none =>
          match validateApps e s1 with
          | (r, t3) => ⟨r, s1, t1 ++ t2 ++ t3⟩

/-! ## Reference definition of the resolver -/

/-- The resolver as the specification words it (section 4.2): a value is valid
if it is a syntactically valid absolute URL whose scheme is one of the two
object-storage schemes, or if it names a path that exists on the local
filesystem; a valid value is returned unchanged with `true`, an invalid one
gives `false` and the empty string. -/
def isValidCertSpec (e : Env) (v : String) : Bool × String :=
  if (e.ParseRequestURI v = true ∧ (HasPrefix v "s3://" = true ∨ HasPrefix v "gs://" = true)) ∨
      e.Stat v = true then
    (true, v)
  else
    (false, "")

/-! ## Sample environment and documents -/

/-- Sample `url.ParseRequestURI`: accepts the strings that start with
`https://`, `s3://` or `gs://`. -/
def sampleParse (v : String) : Bool :=
  HasPrefix v "https://" || HasPrefix v "s3://" || HasPrefix v "gs://"

/-- Sample filesystem: only `certs/ca.crt` and `certs/ca.key` exist. -/
def sampleStat (v : String) : Bool :=
  v = "certs/ca.crt" || v = "certs/ca.key"

/-- The document with every field at its zero value. -/
def emptyState : state := ⟨none, none, config.zero, none, none, none⟩

/-- Sample environment: no ambient context, no namespace override, an empty
process-wide state, and a per-release checker that accepts every release and
leaves the registry as it is. -/
def sampleEnv : Env :=
  ⟨sampleParse, sampleStat, false, "", emptyState, fun _ _ names _ => ((true, ""), names)⟩

/-- Settings of scenario B: cluster URL, context and username set, password
empty. -/
def passwordlessState : state :=
  { emptyState with
    Settings := { config.zero with
      ClusterURI := "https://cluster.example:6443", KubeContext := "ctx", Username := "admin" } }

/-- A cluster URL with neither context nor username. -/
def contextlessState : state :=
  { emptyState with
    Settings := { config.zero with ClusterURI := "https://cluster.example:6443" } }

/-- A cluster URL and a context, without username. -/
def usernamelessState : state :=
  { emptyState with
    Settings := { config.zero with
      ClusterURI := "https://cluster.example:6443", KubeContext := "ctx" } }

/-- Scenario D: a context, one plain namespace, one repository, no apps map. -/
def noAppsState : state :=
  { emptyState with
    Settings := { config.zero with KubeContext := "ctx" }
    Namespaces := some [("staging", Namespace.zero)]
    HelmRepos := some [("stable", ⟨"", "", "https://charts.example.com"⟩)] }

/-- No cluster URL, but a certificate bundle of references that do not
resolve. -/
def unusedCertsState : state :=
  { emptyState with
    Settings := { config.zero with KubeContext := "ctx" }
    Certificates := some [("caCrt", "missing/ca.crt"), ("extra", "not a reference")]
    Namespaces := some [("staging", Namespace.zero)]
    HelmRepos := some [("stable", ⟨"", "", "https://charts.example.com"⟩)] }

/-- Settings of a complete remote-cluster configuration. -/
def remoteSettings : config :=
  { config.zero with
    ClusterURI := "https://cluster.example:6443", KubeContext := "ctx", Username := "admin",
    Password := "secret" }

/-- A cluster URL with a bundle that lacks `caKey`. -/
def missingKeyState : state :=
  { emptyState with
    Settings := remoteSettings
    Certificates := some [("caCrt", "certs/ca.crt")] }

/-- A cluster URL with both required slots resolving and a third entry that
does not. -/
def badClientCertState : state :=
  { emptyState with
    Settings := remoteSettings
    Certificates := some [("caCrt", "certs/ca.crt"), ("caKey", "certs/ca.key"),
      ("clientCrt", "missing/client.crt")] }

/-- A document that `validate` accepts: cluster URL, resolving bundle, one plain
namespace, one repository and an empty apps map. -/
def acceptedState : state :=
  { emptyState with
    Settings := remoteSettings
    Certificates := some [("caCrt", "certs/ca.crt"), ("caKey", "s3://bucket/ca.key")]
    Namespaces := some [("staging", Namespace.zero)]
    HelmRepos := some [("stable", ⟨"", "", "https://charts.example.com"⟩)]
    Apps := some [] }

/-- A namespace that installs Tiller with five credential references, none of
which resolves. -/
def tlsNamespace : Namespace :=
  ⟨true, false, "missing/ca.crt", "missing/tiller.crt", "missing/tiller.key",
    "missing/client.crt", "missing/client.key"⟩

/-- A namespace with both engine intents set. -/
def conflictNamespace : Namespace := ⟨true, true, "", "", "", "", ""⟩

/-- Scenario C: one namespace with both intents true. -/
def conflictState : state :=
  { emptyState with
    Settings := { config.zero with KubeContext := "ctx" }
    Namespaces := some [("beta", conflictNamespace)]
    HelmRepos := some [("stable", ⟨"", "", "https://charts.example.com"⟩)] }

/-- A namespace with unresolvable TLS references visited before a namespace
with both intents set. -/
def mixedState : state :=
  { emptyState with
    Settings := { config.zero with KubeContext := "ctx" }
    Namespaces := some [("alpha", tlsNamespace), ("beta", conflictNamespace)]
    HelmRepos := some [("stable", ⟨"", "", "https://charts.example.com"⟩)] }

/-- The sample environment with `mixedState` as the process-wide state. -/
def mixedEnv : Env := { sampleEnv with s := mixedState }

/-- One namespace that installs Tiller with unresolvable TLS references. -/
def tlsOnlyState : state :=
  { emptyState with
    Settings := { config.zero with KubeContext := "ctx" }
    Namespaces := some [("alpha", tlsNamespace)]
    HelmRepos := some [("stable", ⟨"", "", "https://charts.example.com"⟩)] }

/-- The sample environment with `tlsOnlyState` as the process-wide state. -/
def tlsEnv : Env := { sampleEnv with s := tlsOnlyState }

/-- A context and a repository, but no namespaces map. -/
def noNamespacesState : state :=
  { emptyState with
    Settings := { config.zero with KubeContext := "ctx" }
    HelmRepos := some [("stable", ⟨"", "", "https://charts.example.com"⟩)] }

/-- The sample environment with the namespace override set. -/
def overrideEnv : Env := { sampleEnv with nsOverride := "ops", s := mixedState }

/-- A valid namespace and two repositories, the second with a URL that is not
absolute. -/
def badRepoState : state :=
  { emptyState with
    Settings := { config.zero with KubeContext := "ctx" }
    Namespaces := some [("staging", Namespace.zero)]
    HelmRepos := some [("stable", ⟨"", "", "https://charts.example.com"⟩),
      ("local", ⟨"user", "secret", "not-a-url"⟩)] }

/-- Scenario D with an apps map that is present but has no entries. -/
def emptyAppsState : state := { noAppsState with Apps := some [] }

/-- The registry `names` after the per-release checker has been called on the
releases of a list in turn, starting from a given registry. -/
def namesAfter (e : Env) (s : state) : List (String × Option release) → Registry → Registry
  | [], names => names
  | (appLabel, r) :: rest, names =>
    namesAfter e s rest (e.validateRelease appLabel r names s).2

/-- The per-release checker, called on the releases of a list in turn with the
registry threaded through, accepts each of them. -/
def acceptsAll (e : Env) (s : state) : List (String × Option release) → Registry → Bool
  | [], _ => true
  | (appLabel, r) :: rest, names =>
    (e.validateRelease appLabel r names s).1.1 &&
      acceptsAll e s rest (e.validateRelease appLabel r names s).2

/-- A checker that rejects the release named `broken` and accepts the others. -/
def pickyEnv : Env :=
  { sampleEnv with
    validateRelease := fun _ r names _ =>
      if r.map release.Name = some "broken" then ((false, "chart not found"), names)
      else ((true, ""), names) }

/-- Three apps, the second of which the checker of `pickyEnv` rejects. -/
def threeAppsState : state :=
  { noAppsState with
    Apps := some [("web", some ⟨"web", "staging"⟩), ("db", some ⟨"broken", "staging"⟩),
      ("cache", some ⟨"cache", "staging"⟩)] }

/-! ## The per-release checker, from the spec -/

/-- Go `names[ns][name]` on the uniqueness registry: whether the pair is
registered.  Indexing a missing key yields the zero value. -/
def registered (names : Registry) (ns name : String) : Bool :=
  (((names.lookup ns).getD none).lookup name).getD false

/-- Go `if names[ns] == nil { names[ns] = make(map[string]bool) };
names[ns][name] = true`: registers the pair. -/
def register (names : Registry) (ns name : String) : Registry :=
  let inner : GoMap Bool := (names.lookup ns).getD none
  let inner' : GoMap Bool := if inner.isNone then some [] else inner
  names.set ns (inner'.set name true)

/-- Modelled from the spec: the per-release checker `validateRelease` is defined
outside `state.go`.  Section 4.6 gives its contract: it is expected to register
the release's (namespace, name) pair into the registry and to fail with
`DuplicateRelease` if the pair was already present; section 9 makes that
uniqueness rule the whole of the contract.  So, given a registry made by
`make`: if the pair of the release is registered the checker fails; otherwise
it passes and leaves a registry holding that pair besides the pairs it held. -/
def MeetsContract (e : Env) : Prop :=
  ∀ (appLabel : String) (r : release) (names : Registry) (s : state), names ≠ none →
    (registered names r.Namespace r.Name = true →
      (e.validateRelease appLabel (some r) names s).1.1 = false) ∧
    (registered names r.Namespace r.Name = false →
      (e.validateRelease appLabel (some r) names s).1.1 = true ∧
      (e.validateRelease appLabel (some r) names s).2 ≠ none ∧
      ∀ ns name, registered (e.validateRelease appLabel (some r) names s).2 ns name = true ↔
        (registered names ns name = true ∨ (ns = r.Namespace ∧ name = r.Name)))

/-- Modelled from the spec: a per-release checker that does what the contract
of section 4.6 says and nothing else.  (A nil release is rejected.) -/
def validateReleaseSpec (_appLabel : String) (r : Option release) (names : Registry)
    (_s : state) : (Bool × String) × Registry :=
  match r with
  | none => ((false, "release is not defined"), names)
  | some r =>
    if registered names r.Namespace r.Name then
      ((false, "DuplicateRelease"), names)
    else
      ((true, ""), register names r.Namespace r.Name)

/-- The sample environment with the checker of the spec. -/
def specEnv : Env := { sampleEnv with validateRelease := validateReleaseSpec }

/-- The (namespace, name) pair of a release. -/
def release.pair (r : release) : String × String := (r.Namespace, r.Name)

/-- The apps map in which every label points to a release. -/
def appsOf (l : List (String × release)) : GoMap (Option release) :=
  some (l.map (fun p => (p.1, some p.2)))

/-- Scenario E: two releases in namespace `prod` with the same name, and a
third release between them. -/
def duplicateApps : List (String × release) :=
  [("web", ⟨"frontend", "prod"⟩), ("db", ⟨"postgres", "prod"⟩), ("web-copy", ⟨"frontend", "prod"⟩)]

/-- Scenario E as a document. -/
def duplicateState : state := { noAppsState with Apps := appsOf duplicateApps }

/-! ## The pipeline, from the spec -/

/-- The five stages of validation, in the order of the pipeline. -/
inductive Stage where
  | settings
  | certificates
  | namespaces
  | repos
  | apps
deriving DecidableEq, Repr

/-- The label by which a failure message identifies its stage. -/
def Stage.label : Stage → String
  | .settings => "settings"
  | .certificates => "certifications"
  | .namespaces => "namespaces"
  | .repos => "repos"
  | .apps => "apps"

/-- The check of one stage on a document: the failure message if it fails.  The
apps stage sees the document as the certificates stage leaves it. -/
def stageCheck (e : Env) (s : state) : Stage → Option String
  | .settings => validateSettings e s
  | .certificates => (validateCertificates e s).1
  | .namespaces => (validateNamespaces e s).1
  | .repos => validateRepos e s
  | .apps =>
    match (validateApps e { s with Certificates := (validateCertificates e s).2.1 }).1 with
    | Result.returned false msg => some msg
    | _ => none

/-- Runs the checks of the given stages in order and stops at the first one
that fails, yielding that stage and its message. -/
def firstFailure (e : Env) (s : state) : List Stage → Option (Stage × String)
  | [] => none
  | st :: rest =>
    match stageCheck e s st with
    | some msg => some (st, msg)
    | none => firstFailure e s rest

/-- Validation as the specification words it (sections 2 and 7): the stages
run in the order settings, certificates, namespaces, repositories, apps; the
first failing check aborts the pass and its message is the result; if none
fails the pass succeeds, through the no-apps exit when the apps map is nil. -/
def validateSpec (e : Env) (s : state) : Result :=
  match firstFailure e s
      [Stage.settings, Stage.certificates, Stage.namespaces, Stage.repos, Stage.apps] with
  | some (_, msg) => Result.returned false msg
  | none => if s.Apps = none then Result.exited 0 else Result.returned true ""

/-! ## Range order -/

/-- Two maps hold the same entries, which `range` may visit in different
orders. -/
def GoMap.SameEntries {V : Type} (m m' : GoMap V) : Prop :=
  (m = none ↔ m' = none) ∧ m.entries.Perm m'.entries

/-- The document `s'` is the document `s` with the Certificates, Namespaces and
HelmRepos maps visited in other orders; the rest, the Apps map with its order
included, is the same. -/
def Reordered (s s' : state) : Prop :=
  s'.Metadata = s.Metadata ∧ s'.Settings = s.Settings ∧ s'.Apps = s.Apps ∧
    GoMap.SameEntries s.Certificates s'.Certificates ∧
    GoMap.SameEntries s.Namespaces s'.Namespaces ∧
    GoMap.SameEntries s.HelmRepos s'.HelmRepos

/-- A document with two certificates, two namespaces and two repositories, the
second namespace with both intents set and the second repository with a URL
that does not parse. -/
def orderedState : state :=
  { emptyState with
    Settings := remoteSettings
    Certificates := some [("caCrt", "certs/ca.crt"), ("caKey", "certs/ca.key")]
    Namespaces := some [("staging", Namespace.zero), ("beta", conflictNamespace)]
    HelmRepos := some [("stable", ⟨"", "", "https://charts.example.com"⟩),
      ("local", ⟨"", "", "not-a-url"⟩)]
    Apps := some [] }

/-- The document `orderedState` with its three maps visited in reverse order. -/
def reversedState : state :=
  { emptyState with
    Settings := remoteSettings
    Certificates := some [("caKey", "certs/ca.key"), ("caCrt", "certs/ca.crt")]
    Namespaces := some [("beta", conflictNamespace), ("staging", Namespace.zero)]
    HelmRepos := some [("local", ⟨"", "", "not-a-url"⟩),
      ("stable", ⟨"", "", "https://charts.example.com"⟩)]
    Apps := some [] }

/-! ## Absolute URLs and request URIs -/

/-- A character that may follow the first letter of a URL scheme. -/
def schemeChar (c : Char) : Bool :=
  c.isAlpha || c.isDigit || c == '+' || c == '-' || c == '.'

/-- The characters after the first letter of a raw URL run through scheme
characters up to a colon. -/
def schemeTail : List Char → Bool
  | [] => false
  | c :: rest => if c = ':' then true else schemeChar c && schemeTail rest

/-- The string is an absolute URL in the sense of the specification: it begins
with a scheme (a letter, then letters, digits, `+`, `-` or `.`) followed by a
colon, as in `https://charts.example.com` or `s3://bucket/ca.crt`. -/
def absoluteURL (v : String) : Bool :=
  match v.data with
  | [] => false
  | c :: rest => c.isAlpha && schemeTail rest

/-- Sample `url.ParseRequestURI` that follows the documentation of the library
function: the input is taken as a request URI, that is an absolute URL, an
absolute path (one that begins with `/`), or `*`. -/
def requestParse (v : String) : Bool :=
  v = "*" || HasPrefix v "/" || absoluteURL v

/-- The sample environment with `requestParse` for `url.ParseRequestURI`. -/
def requestEnv : Env := { sampleEnv with ParseRequestURI := requestParse }

/-- A complete remote-cluster configuration whose cluster URL is the absolute
path `/etc/passwd` and whose webhook is `*`. -/
def pathSettingsState : state :=
  { emptyState with
    Settings := { remoteSettings with ClusterURI := "/etc/passwd", SlackWebhook := "*" }
    Certificates := some [("caCrt", "certs/ca.crt"), ("caKey", "certs/ca.key")]
    Namespaces := some [("staging", Namespace.zero)]
    HelmRepos := some [("stable", ⟨"", "", "https://charts.example.com"⟩)] }

/-- A valid document whose only repository has the absolute path `/not/a/url`
for URL. -/
def pathRepoState : state :=
  { emptyAppsState with HelmRepos := some [("local", ⟨"", "", "/not/a/url"⟩)] }

/-! ## Messages -/

theorem HasPrefix_iff (s p : String) : HasPrefix s p = true ↔ ∃ t, s.data = p.data ++ t := by
  simp only [HasPrefix, List.isPrefixOf_iff_prefix]
  constructor
  · rintro ⟨t, ht⟩; exact ⟨t, ht.symm⟩
  · rintro ⟨t, ht⟩; exact ⟨t, ht.symm⟩

/-- A message that carries the label of another block does not carry the
label of the certificates block. -/
theorem not_certifications_of_other {msg : String}
    (h : HasPrefix msg "ERROR: settings validation failed" = true ∨
      HasPrefix msg "ERROR: namespaces validation failed" = true ∨
      HasPrefix msg "ERROR: repos validation failed" = true ∨
      HasPrefix msg "ERROR: apps validation failed" = true) :
    HasPrefix msg "ERROR: certifications validation failed" = false := by
  rcases h with h | h | h | h <;>
    (obtain ⟨t, ht⟩ := (HasPrefix_iff _ _).1 h
     simp [HasPrefix, ht, List.isPrefixOf])

theorem certLoop_msg_ne_missing (key : String) :
    "ERROR: certifications validation failed -- [ " ++ key ++
      " ] must be a valid S3 or GCS bucket URL or a valid relative file path." ≠
        missingCertificates := by
  intro h
  have := congrArg (fun s => s.data.take 50) h
  simp [String.data_append, missingCertificates] at this

theorem conflict_ne_tls (k k' : String) :
    "ERROR: namespaces validation failed -- installTiller and useTiller can't be used together for namespace [ " ++ k ++ " ]" ≠
      "ERROR: namespaces validation failed  -- some certs/keys are not valid for Tiller TLS in namespace [ " ++ k' ++ " ]." := by
  intro h
  have := congrArg (fun s => s.data.take 40) h
  simp [String.data_append] at this

theorem tls_msg_inj {k k' : String}
    (h : "ERROR: namespaces validation failed  -- some certs/keys are not valid for Tiller TLS in namespace [ " ++ k ++ " ]." =
      "ERROR: namespaces validation failed  -- some certs/keys are not valid for Tiller TLS in namespace [ " ++ k' ++ " ].") :
    k = k' := by
  have := congrArg String.data h
  simp [String.data_append] at this
  exact String.ext this

/-! ## Go maps -/

theorem GoMap.lookup_eq_none_of_len {V : Type} {m : GoMap V} (h : m.len = 0) (k : String) :
    m.lookup k = none := by
  cases m with
  | none => rfl
  | some l =>
    cases l with
    | nil => rfl
    | cons a l => simp [GoMap.len, GoMap.entries] at h

theorem GoMap.setEntry_of_mem {V : Type} {k : String} {v : V} :
    ∀ l : List (String × V), (k, v) ∈ l → (l.map Prod.fst).Nodup → GoMap.setEntry k v l = l
  | [], h, _ => by simp at h
  | (k', v') :: rest, h, hnd => by
    rw [List.map_cons, List.nodup_cons] at hnd
    unfold GoMap.setEntry
    by_cases hk : k' = k
    · rw [if_pos hk]
      rcases List.mem_cons.1 h with h | h
      · rw [h]
      · exfalso
        apply hnd.1
        rw [hk]
        exact List.mem_map.2 ⟨(k, v), h, rfl⟩
    · rw [if_neg hk]
      rcases List.mem_cons.1 h with h | h
      · exfalso; apply hk; rw [Prod.mk.injEq] at h; exact h.1.symm
      · rw [GoMap.setEntry_of_mem rest h hnd.2]

theorem GoMap.set_of_mem {V : Type} {m : GoMap V} {k : String} {v : V}
    (h : (k, v) ∈ m.entries) (hwf : m.WF) : m.set k v = m := by
  cases m with
  | none => rfl
  | some l =>
    simp only [GoMap.set, Option.map_some', Option.some.injEq]
    exact GoMap.setEntry_of_mem l h hwf

theorem lookup_split {V : Type} {K : String} {v : V} :
    ∀ (pre post : List (String × V)), K ∉ pre.map Prod.fst →
      List.lookup K (pre ++ (K, v) :: post) = some v
  | [], post, _ => by simp [List.lookup]
  | (k, w) :: pre, post, h => by
    have hk : ¬ K = k := fun hk => h (by simp [hk])
    have hk' : (K == k) = false := by simpa using hk
    have h' : K ∉ pre.map Prod.fst := fun hm => h (by simp at hm ⊢; exact Or.inr hm)
    rw [List.cons_append, List.lookup, hk']
    exact lookup_split pre post h'

/-! ## The resolver and the TLS switch -/

theorem isValidCert_eq_spec (e : Env) (v : String) : isValidCert e v = isValidCertSpec e v := by
  unfold isValidCert isValidCertSpec
  cases hp : e.ParseRequestURI v <;> cases hs : e.Stat v <;>
    cases h3 : HasPrefix v "s3://" <;> cases hg : HasPrefix v "gs://" <;>
    simp

theorem isValidCert_of_valid {e : Env} {v : String} (h : (isValidCert e v).1 = true) :
    isValidCert e v = (true, v) := by
  simp only [isValidCert] at h ⊢
  split_ifs at h ⊢
  rfl

theorem isValidCert_of_invalid {e : Env} {v : String} (h : (isValidCert e v).1 = false) :
    isValidCert e v = (false, "") := by
  simp only [isValidCert] at h ⊢
  split_ifs at h ⊢
  rfl

theorem isValidCert_empty {e : Env} (h : e.Stat "" = false) : isValidCert e "" = (false, "") := by
  have h3 : HasPrefix "" "s3://" = false := by decide
  have hg : HasPrefix "" "gs://" = false := by decide
  simp [isValidCert, h, h3, hg]

theorem tillerTLSEnabled_iff (e : Env) (k : String) :
    tillerTLSEnabled e k = true ↔
      ((e.s.Namespaces.lookup k).getD Namespace.zero).CaCert ≠ "" ∧
      ((e.s.Namespaces.lookup k).getD Namespace.zero).TillerCert ≠ "" ∧
      ((e.s.Namespaces.lookup k).getD Namespace.zero).TillerKey ≠ "" ∧
      ((e.s.Namespaces.lookup k).getD Namespace.zero).ClientCert ≠ "" ∧
      ((e.s.Namespaces.lookup k).getD Namespace.zero).ClientKey ≠ "" := by
  simp only [tillerTLSEnabled]
  split_ifs with h
  · simp [h]
  · simp [h]

/-! ## The settings block -/

theorem validateSettings_eq_none_iff (e : Env) (s : state) :
    validateSettings e s = none ↔
      s.Settings ≠ config.zero ∧
      (s.Settings.KubeContext ≠ "" ∨ e.getKubeContext = true) ∧
      (s.Settings.ClusterURI = "" ∨
        (e.ParseRequestURI s.Settings.ClusterURI = true ∧ s.Settings.KubeContext ≠ "" ∧
          s.Settings.Username ≠ "" ∧ s.Settings.Password ≠ "")) ∧
      (s.Settings.SlackWebhook = "" ∨ e.ParseRequestURI s.Settings.SlackWebhook = true) := by
  unfold validateSettings validateCluster validateSlack
  by_cases hz : s.Settings = config.zero
  · simp [hz]
  by_cases hc : s.Settings.KubeContext = "" <;> by_cases hg : e.getKubeContext = true <;>
    by_cases hu : s.Settings.ClusterURI = "" <;>
    by_cases hp : e.ParseRequestURI s.Settings.ClusterURI = true <;>
    by_cases hn : s.Settings.Username = "" <;>
    by_cases hw : s.Settings.Password = "" <;>
    by_cases hk : s.Settings.SlackWebhook = "" <;>
    by_cases hq : e.ParseRequestURI s.Settings.SlackWebhook = true <;>
    simp [hz, hc, hg, hu, hp, hn, hw, hk, hq]

theorem settings_ne_zero_of_clusterURI {s : state} (h : s.Settings.ClusterURI ≠ "") :
    s.Settings ≠ config.zero := by
  intro hz; apply h; rw [hz]; rfl

theorem validateSettings_label {e : Env} {s : state} {msg : String}
    (h : validateSettings e s = some msg) :
    HasPrefix msg "ERROR: settings validation failed" = true := by
  unfold validateSettings validateCluster validateSlack at h
  split_ifs at h <;> cases h <;> decide

/-! ## The certificates block -/

theorem validateCertificates_of_no_cluster {e : Env} {s : state}
    (h : s.Settings.ClusterURI = "") :
    validateCertificates e s = (none, s.Certificates,
      if s.Certificates.len = 0 then []
      else [Event.log
        "INFO: certificates provided but not needed. Skipping certificates validation."]) := by
  unfold validateCertificates
  by_cases hl : s.Certificates.len = 0
  · simp [h, hl]
  · have hn : s.Certificates ≠ none := by
      intro hn; rw [hn] at hl; exact hl rfl
    simp [h, hl, hn]

theorem validateCertificates_of_missing {e : Env} {s : state}
    (h : s.Settings.ClusterURI ≠ "")
    (hm : s.Certificates.lookup "caCrt" = none ∨ s.Certificates.lookup "caKey" = none) :
    validateCertificates e s = (some missingCertificates, s.Certificates, []) := by
  unfold validateCertificates
  by_cases hl : s.Certificates.len = 0
  · simp [h, hl]
  · have hn : s.Certificates ≠ none := by
      intro hn; rw [hn] at hl; exact hl rfl
    rcases hm with hm | hm <;> simp [h, hl, hn, hm]

theorem validateCertificates_of_present {e : Env} {s : state}
    (h : s.Settings.ClusterURI ≠ "")
    (h2 : s.Certificates.lookup "caCrt" ≠ none) (h3 : s.Certificates.lookup "caKey" ≠ none) :
    validateCertificates e s = certLoop e s.Certificates.entries s.Certificates := by
  unfold validateCertificates
  have hl : s.Certificates.len ≠ 0 := fun hl => h2 (GoMap.lookup_eq_none_of_len hl _)
  have hn : s.Certificates ≠ none := by
    intro hn; rw [hn] at hl; exact hl rfl
  simp [h, hl, hn, h2, h3]

theorem certLoop_label {e : Env} {msg : String} :
    ∀ (l : List (String × String)) (m : GoMap String), (certLoop e l m).1 = some msg →
      HasPrefix msg "ERROR: certifications validation failed" = true
  | [], m, h => by simp [certLoop] at h
  | (key, value) :: rest, m, h => by
    unfold certLoop at h
    cases hr : (isValidCert e value).1 with
    | false =>
      simp [hr] at h
      subst h
      simp [HasPrefix, String.data_append]
    | true =>
      simp [hr] at h
      exact certLoop_label rest _ h

theorem validateCertificates_label {e : Env} {s : state} {msg : String}
    (h : (validateCertificates e s).1 = some msg) :
    HasPrefix msg "ERROR: certifications validation failed" = true := by
  by_cases hu : s.Settings.ClusterURI = ""
  · rw [validateCertificates_of_no_cluster hu] at h; simp at h
  · by_cases hm : s.Certificates.lookup "caCrt" = none ∨ s.Certificates.lookup "caKey" = none
    · rw [validateCertificates_of_missing hu hm] at h
      simp at h; subst h; decide
    · rw [not_or] at hm
      rw [validateCertificates_of_present hu hm.1 hm.2] at h
      exact certLoop_label _ _ h

theorem certLoop_msg {e : Env} {msg : String} :
    ∀ (l : List (String × String)) (m : GoMap String), (certLoop e l m).1 = some msg →
      ∃ pre key value post, l = pre ++ (key, value) :: post ∧
        (∀ p ∈ pre, (isValidCert e p.2).1 = true) ∧ (isValidCert e value).1 = false ∧
        msg = "ERROR: certifications validation failed -- [ " ++ key ++
          " ] must be a valid S3 or GCS bucket URL or a valid relative file path."
  | [], m, h => by simp [certLoop] at h
  | (key, value) :: rest, m, h => by
    unfold certLoop at h
    cases hr : (isValidCert e value).1 with
    | false =>
      simp [hr] at h
      exact ⟨[], key, value, rest, rfl, by simp, hr, h.symm⟩
    | true =>
      simp [hr] at h
      obtain ⟨pre, k, v, post, hl, hpre, hv, hmsg⟩ := certLoop_msg rest _ h
      refine ⟨(key, value) :: pre, k, v, post, by rw [hl]; rfl, ?_, hv, hmsg⟩
      intro p hp
      rcases List.mem_cons.1 hp with rfl | hp
      · exact hr
      · exact hpre p hp

theorem certLoop_none_iff (e : Env) :
    ∀ (l : List (String × String)) (m : GoMap String),
      (certLoop e l m).1 = none ↔ ∀ p ∈ l, (isValidCert e p.2).1 = true
  | [], m => by simp [certLoop]
  | (key, value) :: rest, m => by
    unfold certLoop
    cases hr : (isValidCert e value).1 with
    | false => simp [hr]
    | true => simp [hr, certLoop_none_iff e rest]

/-- The write-back of the certificate loop stores what is already there. -/
theorem certLoop_map (e : Env) (m : GoMap String) (hwf : m.WF) :
    ∀ l : List (String × String), (∀ p ∈ l, p ∈ m.entries) → (certLoop e l m).2.1 = m
  | [], _ => rfl
  | (key, value) :: rest, h => by
    unfold certLoop
    cases hr : (isValidCert e value).1 with
    | false => simp [hr]
    | true =>
      have hv := isValidCert_of_valid hr
      have hset : m.set key value = m :=
        GoMap.set_of_mem (h (key, value) (List.mem_cons_self _ _)) hwf
      simp only [hv, hset]
      exact certLoop_map e m hwf rest (fun p hp => h p (List.mem_cons_of_mem _ hp))

theorem validateCertificates_map (e : Env) (s : state) (hwf : s.Certificates.WF) :
    (validateCertificates e s).2.1 = s.Certificates := by
  by_cases hu : s.Settings.ClusterURI = ""
  · rw [validateCertificates_of_no_cluster hu]
  · by_cases hm : s.Certificates.lookup "caCrt" = none ∨ s.Certificates.lookup "caKey" = none
    · rw [validateCertificates_of_missing hu hm]
    · rw [not_or] at hm
      rw [validateCertificates_of_present hu hm.1 hm.2]
      exact certLoop_map e _ hwf _ (fun _ hp => hp)

/-! ## The namespaces block -/

theorem namespaceBody_fail_iff (e : Env) (k : String) (ns : Namespace) (msg : String) :
    (namespaceBody e k ns).1 = some msg ↔
      (ns.InstallTiller = true ∧ ns.UseTiller = true ∧ msg =
        "ERROR: namespaces validation failed -- installTiller and useTiller can't be used together for namespace [ " ++ k ++ " ]") ∨
      (ns.InstallTiller = true ∧ ns.UseTiller = false ∧ tillerTLSEnabled e k = true ∧
        ¬ ((isValidCert e ns.CaCert).1 = true ∧ (isValidCert e ns.ClientCert).1 = true ∧
          (isValidCert e ns.ClientKey).1 = true ∧ (isValidCert e ns.TillerCert).1 = true ∧
          (isValidCert e ns.TillerKey).1 = true) ∧ msg =
        "ERROR: namespaces validation failed  -- some certs/keys are not valid for Tiller TLS in namespace [ " ++ k ++ " ].") := by
  unfold namespaceBody
  cases hi : ns.InstallTiller <;> cases hu : ns.UseTiller <;>
    cases ht : tillerTLSEnabled e k <;>
    cases h1 : (isValidCert e ns.CaCert).1 <;> cases h2 : (isValidCert e ns.ClientCert).1 <;>
    cases h3 : (isValidCert e ns.ClientKey).1 <;> cases h4 : (isValidCert e ns.TillerCert).1 <;>
    cases h5 : (isValidCert e ns.TillerKey).1 <;>
    simp [eq_comm]

theorem namespaceLoop_nil (e : Env) : namespaceLoop e [] = (none, []) := rfl

theorem namespaceLoop_cons_fail {e : Env} {k : String} {ns : Namespace} {msg : String}
    (rest : List (String × Namespace)) (h : (namespaceBody e k ns).1 = some msg) :
    namespaceLoop e ((k, ns) :: rest) = (some msg, (namespaceBody e k ns).2) := by
  rcases hb : namespaceBody e k ns with ⟨r, t⟩
  rw [hb] at h
  simp only at h
  subst h
  simp [namespaceLoop, hb]

theorem namespaceLoop_cons_pass {e : Env} {k : String} {ns : Namespace}
    (rest : List (String × Namespace)) (h : (namespaceBody e k ns).1 = none) :
    namespaceLoop e ((k, ns) :: rest) =
      ((namespaceLoop e rest).1, (namespaceBody e k ns).2 ++ (namespaceLoop e rest).2) := by
  rcases hb : namespaceBody e k ns with ⟨r, t⟩
  rw [hb] at h
  simp only at h
  subst h
  simp [namespaceLoop, hb]

theorem namespaceLoop_none_iff (e : Env) :
    ∀ l : List (String × Namespace), (namespaceLoop e l).1 = none ↔
      ∀ p ∈ l, (namespaceBody e p.1 p.2).1 = none
  | [] => by simp [namespaceLoop]
  | (k, ns) :: rest => by
    cases hb : (namespaceBody e k ns).1 with
    | some msg => simp [namespaceLoop_cons_fail rest hb, hb]
    | none => simp [namespaceLoop_cons_pass rest hb, hb, namespaceLoop_none_iff e rest]

theorem namespaceLoop_append {e : Env} :
    ∀ (pre l : List (String × Namespace)), (namespaceLoop e pre).1 = none →
      (namespaceLoop e (pre ++ l)).1 = (namespaceLoop e l).1
  | [], l, _ => rfl
  | (k, ns) :: pre, l, h => by
    cases hb : (namespaceBody e k ns).1 with
    | some msg => rw [namespaceLoop_cons_fail pre hb] at h; simp at h
    | none =>
      rw [namespaceLoop_cons_pass pre hb] at h
      rw [List.cons_append, namespaceLoop_cons_pass _ hb]
      exact namespaceLoop_append pre l h

theorem namespaceLoop_fail_split {e : Env} {msg : String} :
    ∀ l : List (String × Namespace), (namespaceLoop e l).1 = some msg →
      ∃ pre k ns post, l = pre ++ (k, ns) :: post ∧ (namespaceLoop e pre).1 = none ∧
        (namespaceBody e k ns).1 = some msg
  | [], h => by simp [namespaceLoop] at h
  | (k, ns) :: rest, h => by
    cases hb : (namespaceBody e k ns).1 with
    | some m =>
      rw [namespaceLoop_cons_fail rest hb] at h
      simp only [Option.some.injEq] at h
      subst h
      exact ⟨[], k, ns, rest, rfl, rfl, hb⟩
    | none =>
      rw [namespaceLoop_cons_pass rest hb] at h
      obtain ⟨pre, k', ns', post, hl, hpre, hbody⟩ := namespaceLoop_fail_split rest h
      refine ⟨(k, ns) :: pre, k', ns', post, by rw [hl]; rfl, ?_, hbody⟩
      rw [namespaceLoop_cons_pass pre hb]
      exact hpre

theorem namespaceBody_label {e : Env} {k : String} {ns : Namespace} {msg : String}
    (h : (namespaceBody e k ns).1 = some msg) :
    HasPrefix msg "ERROR: namespaces validation failed" = true := by
  rcases (namespaceBody_fail_iff e k ns msg).1 h with ⟨_, _, rfl⟩ | ⟨_, _, _, _, rfl⟩ <;>
    simp [HasPrefix, String.data_append]

theorem validateNamespaces_label {e : Env} {s : state} {msg : String}
    (h : (validateNamespaces e s).1 = some msg) :
    HasPrefix msg "ERROR: namespaces validation failed" = true := by
  unfold validateNamespaces at h
  split_ifs at h
  · simp at h; subst h; decide
  · obtain ⟨_, k, ns, _, _, _, hb⟩ := namespaceLoop_fail_split _ h
    exact namespaceBody_label hb

theorem validateNamespaces_of_entries {e : Env} {s : state} (hns : e.nsOverride = "")
    (hne : s.Namespaces.entries ≠ []) :
    validateNamespaces e s = namespaceLoop e s.Namespaces.entries := by
  unfold validateNamespaces
  have h1 : s.Namespaces ≠ none := by
    intro h; apply hne; rw [h]; rfl
  have h2 : s.Namespaces.len ≠ 0 := by
    intro h; apply hne; exact List.length_eq_zero.1 h
  simp [hns, h1, h2]

theorem validateNamespaces_certs (e : Env) (s : state) (certs : GoMap String) :
    validateNamespaces e { s with Certificates := certs } = validateNamespaces e s := rfl

/-! ## The repositories and apps blocks -/

theorem repoLoop_label {e : Env} {msg : String} :
    ∀ l : List (String × repo), repoLoop e l = some msg →
      HasPrefix msg "ERROR: repos validation failed" = true
  | [], h => by simp [repoLoop] at h
  | (k, v) :: rest, h => by
    unfold repoLoop at h
    cases hp : e.ParseRequestURI v.Url with
    | false =>
      simp [hp] at h
      subst h
      simp [HasPrefix, String.data_append]
    | true =>
      simp [hp] at h
      exact repoLoop_label rest h

theorem validateRepos_label {e : Env} {s : state} {msg : String}
    (h : validateRepos e s = some msg) :
    HasPrefix msg "ERROR: repos validation failed" = true := by
  unfold validateRepos at h
  split_ifs at h
  · simp at h; subst h; decide
  · exact repoLoop_label _ h

theorem validateRepos_certs (e : Env) (s : state) (certs : GoMap String) :
    validateRepos e { s with Certificates := certs } = validateRepos e s := rfl

theorem appLoop_label {e : Env} {s : state} {msg : String} :
    ∀ (l : List (String × Option release)) (names : Registry),
      (appLoop e s l names).1 = some msg →
        HasPrefix msg "ERROR: apps validation failed" = true
  | [], _, h => by simp [appLoop] at h
  | (appLabel, r) :: rest, names, h => by
    unfold appLoop at h
    cases hv : (e.validateRelease appLabel r names s).1.1 with
    | false =>
      simp [hv] at h
      subst h
      simp [HasPrefix, String.data_append]
    | true =>
      simp [hv] at h
      exact appLoop_label rest _ h

theorem validateApps_label {e : Env} {s : state} {msg : String}
    (h : (validateApps e s).1 = Result.returned false msg) :
    HasPrefix msg "ERROR: apps validation failed" = true := by
  unfold validateApps at h
  split_ifs at h
  rcases hl : appLoop e s s.Apps.entries (some []) with ⟨r, t⟩
  rw [hl] at h
  cases r with
  | none => simp at h
  | some m =>
    simp at h
    subst h
    exact appLoop_label _ _ (by rw [hl])

/-! ## How `validate` ends, block by block -/

theorem validate_of_settings_fail {e : Env} {s : state} {msg : String}
    (h : validateSettings e s = some msg) :
    validate e s = ⟨Result.returned false msg, s, []⟩ := by
  simp [validate, h]

theorem settings_pass_of_not_failed {e : Env} {s : state}
    (h : (validate e s).result.failed = false) : validateSettings e s = none := by
  cases hs : validateSettings e s with
  | none => rfl
  | some msg => rw [validate_of_settings_fail hs] at h; simp [Result.failed] at h

theorem validate_of_certificates_fail {e : Env} {s : state} {msg : String}
    (h0 : validateSettings e s = none) (h1 : (validateCertificates e s).1 = some msg) :
    validate e s = ⟨Result.returned false msg,
      { s with Certificates := (validateCertificates e s).2.1 },
      (validateCertificates e s).2.2⟩ := by
  rcases hc : validateCertificates e s with ⟨r, certs, t1⟩
  rw [hc] at h1
  simp only at h1
  subst h1
  simp [validate, h0, hc]

theorem validate_of_namespaces_fail {e : Env} {s : state} {msg : String}
    (h0 : validateSettings e s = none) (h1 : (validateCertificates e s).1 = none)
    (h2 : (validateNamespaces e s).1 = some msg) :
    validate e s = ⟨Result.returned false msg,
      { s with Certificates := (validateCertificates e s).2.1 },
      (validateCertificates e s).2.2 ++ (validateNamespaces e s).2⟩ := by
  rcases hc : validateCertificates e s with ⟨r, certs, t1⟩
  rw [hc] at h1
  simp only at h1
  subst h1
  rcases hn : validateNamespaces e s with ⟨r, t2⟩
  rw [hn] at h2
  simp only at h2
  subst h2
  simp [validate, h0, hc, validateNamespaces_certs, hn]

theorem validate_of_repos_fail {e : Env} {s : state} {msg : String}
    (h0 : validateSettings e s = none) (h1 : (validateCertificates e s).1 = none)
    (h2 : (validateNamespaces e s).1 = none) (h3 : validateRepos e s = some msg) :
    validate e s = ⟨Result.returned false msg,
      { s with Certificates := (validateCertificates e s).2.1 },
      (validateCertificates e s).2.2 ++ (validateNamespaces e s).2⟩ := by
  rcases hc : validateCertificates e s with ⟨r, certs, t1⟩
  rw [hc] at h1
  simp only at h1
  subst h1
  rcases hn : validateNamespaces e s with ⟨r, t2⟩
  rw [hn] at h2
  simp only at h2
  subst h2
  simp [validate, h0, hc, validateNamespaces_certs, hn, validateRepos_certs, h3]

theorem validate_of_repos_pass {e : Env} {s : state}
    (h0 : validateSettings e s = none) (h1 : (validateCertificates e s).1 = none)
    (h2 : (validateNamespaces e s).1 = none) (h3 : validateRepos e s = none) :
    validate e s =
      ⟨(validateApps e { s with Certificates := (validateCertificates e s).2.1 }).1,
        { s with Certificates := (validateCertificates e s).2.1 },
        (validateCertificates e s).2.2 ++ (validateNamespaces e s).2 ++
          (validateApps e { s with Certificates := (validateCertificates e s).2.1 }).2⟩ := by
  rcases hc : validateCertificates e s with ⟨r, certs, t1⟩
  rw [hc] at h1
  simp only at h1
  subst h1
  rcases hn : validateNamespaces e s with ⟨r, t2⟩
  rw [hn] at h2
  simp only at h2
  subst h2
  simp [validate, h0, hc, validateNamespaces_certs, hn, validateRepos_certs, h3]

/-- The block a failure of `validate` comes from. -/
theorem validate_failed_cases {e : Env} {s : state} {msg : String}
    (h : (validate e s).result = Result.returned false msg) :
    validateSettings e s = some msg ∨
      (validateSettings e s = none ∧ (validateCertificates e s).1 = some msg) ∨
      (validateSettings e s = none ∧ (validateCertificates e s).1 = none ∧
        (validateNamespaces e s).1 = some msg) ∨
      (validateSettings e s = none ∧ (validateCertificates e s).1 = none ∧
        (validateNamespaces e s).1 = none ∧ validateRepos e s = some msg) ∨
      (validateSettings e s = none ∧ (validateCertificates e s).1 = none ∧
        (validateNamespaces e s).1 = none ∧ validateRepos e s = none ∧
        (validateApps e { s with Certificates := (validateCertificates e s).2.1 }).1 =
          Result.returned false msg) := by
  cases h0 : validateSettings e s with
  | some m =>
    rw [validate_of_settings_fail h0] at h
    simp at h; subst h; exact Or.inl rfl
  | none =>
    right
    cases h1 : (validateCertificates e s).1 with
    | some m =>
      rw [validate_of_certificates_fail h0 h1] at h
      simp at h; subst h; exact Or.inl ⟨rfl, rfl⟩
    | none =>
      right
      cases h2 : (validateNamespaces e s).1 with
      | some m =>
        rw [validate_of_namespaces_fail h0 h1 h2] at h
        simp at h; subst h; exact Or.inl ⟨rfl, rfl, rfl⟩
      | none =>
        right
        cases h3 : validateRepos e s with
        | some m =>
          rw [validate_of_repos_fail h0 h1 h2 h3] at h
          simp at h; subst h; exact Or.inl ⟨rfl, rfl, rfl, rfl⟩
        | none =>
          right
          rw [validate_of_repos_pass h0 h1 h2 h3] at h
          exact ⟨rfl, rfl, rfl, rfl, h⟩

theorem validate_s_of_settings_pass {e : Env} {s : state} (h0 : validateSettings e s = none) :
    (validate e s).s = { s with Certificates := (validateCertificates e s).2.1 } := by
  cases h1 : (validateCertificates e s).1 with
  | some m => rw [validate_of_certificates_fail h0 h1]
  | none =>
    cases h2 : (validateNamespaces e s).1 with
    | some m => rw [validate_of_namespaces_fail h0 h1 h2]
    | none =>
      cases h3 : validateRepos e s with
      | some m => rw [validate_of_repos_fail h0 h1 h2 h3]
      | none => rw [validate_of_repos_pass h0 h1 h2 h3]

/-- A call of `validate` leaves the document as it found it. -/
theorem validate_s (e : Env) (s : state) (hwf : s.Certificates.WF) : (validate e s).s = s := by
  cases h0 : validateSettings e s with
  | some m => rw [validate_of_settings_fail h0]
  | none => rw [validate_s_of_settings_pass h0, validateCertificates_map e s hwf]

/-! ## Settings -/

/-- C1: when the Settings value is the zero config, `validate` returns
`(false, "ERROR: settings validation failed -- no settings table provided in
state file.")` whatever the other fields, the ambient-context flag and
`nsOverride` are; it has no effect at all (empty trace, so neither the resolver
nor the per-release checker is consulted) and leaves the document as it is. -/
theorem validate_missing_settings (e : Env) (s : state) (h : s.Settings = config.zero) :
    (validate e s).result = Result.returned false
        "ERROR: settings validation failed -- no settings table provided in state file." ∧
      (validate e s).trace = [] ∧ (validate e s).s = s := by
  have hs : validateSettings e s = some
      "ERROR: settings validation failed -- no settings table provided in state file." := by
    simp [validateSettings, h]
  simp [validate_of_settings_fail hs]

theorem validate_missing_settings_witness :
    emptyState.Settings = config.zero ∧
      (validate sampleEnv emptyState).result = Result.returned false
        "ERROR: settings validation failed -- no settings table provided in state file." ∧
      (validate sampleEnv emptyState).trace = [] ∧
      (validate sampleEnv emptyState).s = emptyState :=
  ⟨rfl, validate_missing_settings sampleEnv emptyState rfl⟩

/-- C2, as stated, fails: with a cluster URL set, the username empty, the
context empty and an ambient context available, `validate` returns the
KubeContext-required message, not the username-required one. -/
theorem username_check_preempted :
    contextlessState.Settings.ClusterURI ≠ "" ∧ contextlessState.Settings.Username = "" ∧
      (validate { sampleEnv with getKubeContext := true } contextlessState).result =
        Result.returned false
          "ERROR: settings validation failed -- KubeContext must be provided if clusterURI is defined." ∧
      (validate { sampleEnv with getKubeContext := true } contextlessState).result ≠
        Result.returned false
          "ERROR: settings validation failed -- username must be provided if clusterURI is defined." := by
  decide

/-- C2, amended: when ClusterURI is non-empty and Username is empty, `validate`
returns false with the message of the first settings check that fails, whatever
the password, certificates, namespaces, repositories and apps are: the
missing-context message if KubeContext is empty and no ambient context is
available, else the invalid-clusterURI message if ClusterURI does not parse,
else the KubeContext-required message if KubeContext is empty, and otherwise
(KubeContext set and ClusterURI parsing) the username-required message. -/
theorem validate_username_required (e : Env) (s : state)
    (huri : s.Settings.ClusterURI ≠ "") (huser : s.Settings.Username = "") :
    (validate e s).result = Result.returned false
      (if s.Settings.KubeContext = "" ∧ e.getKubeContext = false then
        "ERROR: settings validation failed -- you have not provided a kubeContext to use. Can't work without it. Sorry!"
      else if e.ParseRequestURI s.Settings.ClusterURI = false then
        "ERROR: settings validation failed -- clusterURI must have a valid URL set in an env variable or passed directly. Either the env var is missing/empty or the URL is invalid."
      else if s.Settings.KubeContext = "" then
        "ERROR: settings validation failed -- KubeContext must be provided if clusterURI is defined."
      else
        "ERROR: settings validation failed -- username must be provided if clusterURI is defined.") := by
  have hz := settings_ne_zero_of_clusterURI huri
  have hs : validateSettings e s = some
      (if s.Settings.KubeContext = "" ∧ e.getKubeContext = false then
        "ERROR: settings validation failed -- you have not provided a kubeContext to use. Can't work without it. Sorry!"
      else if e.ParseRequestURI s.Settings.ClusterURI = false then
        "ERROR: settings validation failed -- clusterURI must have a valid URL set in an env variable or passed directly. Either the env var is missing/empty or the URL is invalid."
      else if s.Settings.KubeContext = "" then
        "ERROR: settings validation failed -- KubeContext must be provided if clusterURI is defined."
      else
        "ERROR: settings validation failed -- username must be provided if clusterURI is defined.") := by
    unfold validateSettings validateCluster
    by_cases hc : s.Settings.KubeContext = "" <;> by_cases hg : e.getKubeContext = true <;>
      by_cases hp : e.ParseRequestURI s.Settings.ClusterURI = true <;>
      simp [hz, huri, huser, hc, hg, hp]
  rw [validate_of_settings_fail hs]

theorem validate_username_required_witness :
    usernamelessState.Settings.ClusterURI ≠ "" ∧ usernamelessState.Settings.Username = "" ∧
      (validate sampleEnv usernamelessState).result = Result.returned false
        "ERROR: settings validation failed -- username must be provided if clusterURI is defined." :=
  ⟨by decide, rfl, validate_username_required sampleEnv usernamelessState (by decide) rfl⟩

/-- C3: when ClusterURI is non-empty and parses, KubeContext and Username are
non-empty and Password is empty, `validate` returns `(false, "ERROR: settings
validation failed -- password must be provided if clusterURI is defined.")`,
whatever the rest of the document, the ambient-context flag and the other
externals are. -/
theorem validate_password_required (e : Env) (s : state)
    (huri : s.Settings.ClusterURI ≠ "")
    (hparse : e.ParseRequestURI s.Settings.ClusterURI = true)
    (hctx : s.Settings.KubeContext ≠ "") (huser : s.Settings.Username ≠ "")
    (hpw : s.Settings.Password = "") :
    (validate e s).result = Result.returned false
      "ERROR: settings validation failed -- password must be provided if clusterURI is defined." := by
  have hz := settings_ne_zero_of_clusterURI huri
  have hs : validateSettings e s = some
      "ERROR: settings validation failed -- password must be provided if clusterURI is defined." := by
    simp [validateSettings, validateCluster, hz, huri, hparse, hctx, huser, hpw]
  rw [validate_of_settings_fail hs]

theorem validate_password_required_witness :
    passwordlessState.Settings.ClusterURI = "https://cluster.example:6443" ∧
      (validate sampleEnv passwordlessState).result = Result.returned false
        "ERROR: settings validation failed -- password must be provided if clusterURI is defined." :=
  ⟨rfl, validate_password_required sampleEnv passwordlessState (by decide) (by decide)
    (by decide) (by decide) rfl⟩

/-- C4, as stated, fails: `url.ParseRequestURI` takes its input as a request
URI, so it accepts the absolute path `/etc/passwd` and `*`, neither of which is
an absolute URL.  With that ClusterURI and that SlackWebhook, context, username,
password and a resolving certificate bundle, `validate` does not fail: it ends
in the no-apps exit. -/
theorem path_cluster_uri_accepted :
    (validate requestEnv pathSettingsState).result = Result.exited 0 ∧
      (validate requestEnv pathSettingsState).result.failed = false ∧
      pathSettingsState.Settings.ClusterURI = "/etc/passwd" ∧
      absoluteURL pathSettingsState.Settings.ClusterURI = false ∧
      pathSettingsState.Settings.SlackWebhook = "*" ∧
      absoluteURL pathSettingsState.Settings.SlackWebhook = false ∧
      absoluteURL "https://cluster.example:6443" = true := by
  decide

/-- C4, amended: if `validate` does not fail (it returns true or takes the
no-apps exit), then the Settings are not the zero value; either ClusterURI is
empty and (KubeContext is non-empty or an ambient context is available), or
ClusterURI is accepted by `url.ParseRequestURI` and KubeContext, Username and
Password are all non-empty; and SlackWebhook is empty or accepted by
`url.ParseRequestURI`. -/
theorem settings_invariant_on_acceptance (e : Env) (s : state)
    (h : (validate e s).result.failed = false) :
    s.Settings ≠ config.zero ∧
      ((s.Settings.ClusterURI = "" ∧
          (s.Settings.KubeContext ≠ "" ∨ e.getKubeContext = true)) ∨
        (e.ParseRequestURI s.Settings.ClusterURI = true ∧ s.Settings.KubeContext ≠ "" ∧
          s.Settings.Username ≠ "" ∧ s.Settings.Password ≠ "")) ∧
      (s.Settings.SlackWebhook = "" ∨ e.ParseRequestURI s.Settings.SlackWebhook = true) := by
  obtain ⟨hz, hctx, hcl, hsl⟩ :=
    (validateSettings_eq_none_iff e s).1 (settings_pass_of_not_failed h)
  refine ⟨hz, ?_, hsl⟩
  rcases hcl with hcl | hcl
  · exact Or.inl ⟨hcl, hctx⟩
  · exact Or.inr hcl

theorem settings_invariant_on_acceptance_witness :
    (validate sampleEnv noAppsState).result = Result.exited 0 ∧
      noAppsState.Settings ≠ config.zero ∧
      ((noAppsState.Settings.ClusterURI = "" ∧
          (noAppsState.Settings.KubeContext ≠ "" ∨ sampleEnv.getKubeContext = true)) ∨
        (sampleEnv.ParseRequestURI noAppsState.Settings.ClusterURI = true ∧
          noAppsState.Settings.KubeContext ≠ "" ∧
          noAppsState.Settings.Username ≠ "" ∧ noAppsState.Settings.Password ≠ "")) ∧
      (noAppsState.Settings.SlackWebhook = "" ∨
        sampleEnv.ParseRequestURI noAppsState.Settings.SlackWebhook = true) :=
  ⟨by decide, settings_invariant_on_acceptance sampleEnv noAppsState (by decide)⟩

/-! ## Certificates -/

/-- C5: when the settings checks pass, `validate` returns `(false,
missingCertificates)` exactly when ClusterURI is non-empty and the certificate
bundle is nil, empty, or lacks the key `caCrt` or the key `caKey`.  When
ClusterURI is empty the certificates block does not fail whatever the bundle
holds, no failure of `validate` carries the certificates label, the resolver is
not called in that block, and the document is left as it was. -/
theorem certificates_required_iff_cluster (e : Env) (s : state) (hset : validateSettings e s = none) :
    ((validate e s).result = Result.returned false missingCertificates ↔
        s.Settings.ClusterURI ≠ "" ∧
          (s.Certificates = none ∨ s.Certificates.len = 0 ∨
            s.Certificates.lookup "caCrt" = none ∨ s.Certificates.lookup "caKey" = none)) ∧
      (s.Settings.ClusterURI = "" →
        (validateCertificates e s).1 = none ∧
        (∀ msg, (validate e s).result = Result.returned false msg →
          HasPrefix msg "ERROR: certifications validation failed" = false) ∧
        (∀ v, Event.isValidCert v ∉ (validateCertificates e s).2.2) ∧
        (validate e s).s = s) := by
  constructor
  · constructor
    · intro h
      by_cases hu : s.Settings.ClusterURI = ""
      · exfalso
        rcases validate_failed_cases h with h | ⟨_, h⟩ | ⟨_, _, h⟩ | ⟨_, _, _, h⟩ | ⟨_, _, _, _, h⟩
        · rw [hset] at h; simp at h
        · rw [validateCertificates_of_no_cluster hu] at h; simp at h
        · exact absurd (validateNamespaces_label h) (by decide)
        · exact absurd (validateRepos_label h) (by decide)
        · exact absurd (validateApps_label h) (by decide)
      · refine ⟨hu, ?_⟩
        by_contra hm
        simp only [not_or] at hm
        obtain ⟨_, _, h2, h3⟩ := hm
        rcases validate_failed_cases h with h | ⟨_, h⟩ | ⟨_, _, h⟩ | ⟨_, _, _, h⟩ | ⟨_, _, _, _, h⟩
        · rw [hset] at h; simp at h
        · rw [validateCertificates_of_present hu h2 h3] at h
          obtain ⟨_, key, _, _, _, _, _, hmsg⟩ := certLoop_msg _ _ h
          exact certLoop_msg_ne_missing key hmsg.symm
        · exact absurd (validateNamespaces_label h) (by decide)
        · exact absurd (validateRepos_label h) (by decide)
        · exact absurd (validateApps_label h) (by decide)
    · rintro ⟨hu, hm⟩
      have hm' : s.Certificates.lookup "caCrt" = none ∨ s.Certificates.lookup "caKey" = none := by
        rcases hm with hm | hm | hm | hm
        · left; rw [hm]; rfl
        · left; exact GoMap.lookup_eq_none_of_len hm _
        · exact Or.inl hm
        · exact Or.inr hm
      have hc := validateCertificates_of_missing (e := e) hu hm'
      rw [validate_of_certificates_fail hset (by rw [hc])]
  · intro hu
    have hc := validateCertificates_of_no_cluster (e := e) hu
    refine ⟨by rw [hc], ?_, ?_, ?_⟩
    · intro msg h
      rcases validate_failed_cases h with h | ⟨_, h⟩ | ⟨_, _, h⟩ | ⟨_, _, _, h⟩ | ⟨_, _, _, _, h⟩
      · rw [hset] at h; simp at h
      · rw [hc] at h; simp at h
      · exact not_certifications_of_other (Or.inr (Or.inl (validateNamespaces_label h)))
      · exact not_certifications_of_other (Or.inr (Or.inr (Or.inl (validateRepos_label h))))
      · exact not_certifications_of_other (Or.inr (Or.inr (Or.inr (validateApps_label h))))
    · intro v
      rw [hc]
      split_ifs <;> simp
    · rw [validate_s_of_settings_pass hset, hc]

theorem certificates_required_iff_cluster_witness :
    (validate sampleEnv missingKeyState).result = Result.returned false missingCertificates ∧
      (validateCertificates sampleEnv unusedCertsState).1 = none ∧
      (∀ v, Event.isValidCert v ∉ (validateCertificates sampleEnv unusedCertsState).2.2) ∧
      (validate sampleEnv unusedCertsState).s = unusedCertsState :=
  ⟨(certificates_required_iff_cluster sampleEnv missingKeyState (by decide)).1.2
      ⟨by decide, Or.inr (Or.inr (Or.inr rfl))⟩,
    ((certificates_required_iff_cluster sampleEnv unusedCertsState (by decide)).2 rfl).1,
    ((certificates_required_iff_cluster sampleEnv unusedCertsState (by decide)).2 rfl).2.2.1,
    ((certificates_required_iff_cluster sampleEnv unusedCertsState (by decide)).2 rfl).2.2.2⟩

/-- C6: when the settings checks pass, ClusterURI is non-empty and the bundle
holds both `caCrt` and `caKey`, the certificates block passes if and only if
`isValidCert` accepts the value of every entry of the bundle; and if it rejects
some value, `validate` returns `(false, "ERROR: certifications validation
failed -- [ K ] must be a valid S3 or GCS bucket URL or a valid relative file
path.")` where K is the key of the first entry in range order whose value is
rejected. -/
theorem certificates_all_resolved (e : Env) (s : state) (hset : validateSettings e s = none)
    (hu : s.Settings.ClusterURI ≠ "")
    (h2 : s.Certificates.lookup "caCrt" ≠ none) (h3 : s.Certificates.lookup "caKey" ≠ none) :
    ((validateCertificates e s).1 = none ↔
        ∀ p ∈ s.Certificates.entries, (isValidCert e p.2).1 = true) ∧
      ((∃ p ∈ s.Certificates.entries, (isValidCert e p.2).1 = false) →
        ∃ pre key value post, s.Certificates.entries = pre ++ (key, value) :: post ∧
          (∀ p ∈ pre, (isValidCert e p.2).1 = true) ∧ (isValidCert e value).1 = false ∧
          (validate e s).result = Result.returned false
            ("ERROR: certifications validation failed -- [ " ++ key ++
              " ] must be a valid S3 or GCS bucket URL or a valid relative file path.")) := by
  have hc := validateCertificates_of_present (e := e) hu h2 h3
  refine ⟨by rw [hc]; exact certLoop_none_iff e _ _, ?_⟩
  rintro ⟨p, hp, hbad⟩
  cases h1 : (validateCertificates e s).1 with
  | none =>
    rw [hc, certLoop_none_iff] at h1
    rw [h1 p hp] at hbad
    cases hbad
  | some msg =>
    have h1' := h1
    rw [hc] at h1'
    obtain ⟨pre, key, value, post, hl, hpre, hv, hmsg⟩ := certLoop_msg _ _ h1'
    refine ⟨pre, key, value, post, hl, hpre, hv, ?_⟩
    rw [validate_of_certificates_fail hset h1, hmsg]

theorem certificates_all_resolved_witness :
    ∃ pre key value post, badClientCertState.Certificates.entries = pre ++ (key, value) :: post ∧
      (∀ p ∈ pre, (isValidCert sampleEnv p.2).1 = true) ∧
      (isValidCert sampleEnv value).1 = false ∧
      (validate sampleEnv badClientCertState).result = Result.returned false
        ("ERROR: certifications validation failed -- [ " ++ key ++
          " ] must be a valid S3 or GCS bucket URL or a valid relative file path.") :=
  (certificates_all_resolved sampleEnv badClientCertState (by decide) (by decide) (by decide)
    (by decide)).2 ⟨("clientCrt", "missing/client.crt"), by decide, by decide⟩

/-! ## The resolver -/

/-- C7: `isValidCert` equals its reference definition `isValidCertSpec`:
`(true, v)` if `v` names an existing path, or parses as a request URL and
begins with `s3://` or `gs://`, and `(false, "")` otherwise.  The second
component is the input or the empty string, it is empty whenever the first
component is false, and, `os.Stat` failing on the empty path, it is empty
exactly when the first component is false. -/
theorem isValidCert_refines_spec (e : Env) (v : String) :
    isValidCert e v = isValidCertSpec e v ∧
      ((isValidCert e v).2 = v ∨ (isValidCert e v).2 = "") ∧
      ((isValidCert e v).1 = false → (isValidCert e v).2 = "") ∧
      (e.Stat "" = false → ((isValidCert e v).2 = "" ↔ (isValidCert e v).1 = false)) := by
  refine ⟨isValidCert_eq_spec e v, ?_, ?_, ?_⟩
  · cases h : (isValidCert e v).1 with
    | false => right; rw [isValidCert_of_invalid h]
    | true => left; rw [isValidCert_of_valid h]
  · intro h; rw [isValidCert_of_invalid h]
  · intro h0
    constructor
    · intro h2
      cases h : (isValidCert e v).1 with
      | false => rfl
      | true =>
        rw [isValidCert_of_valid h] at h2
        simp only at h2
        subst h2
        rw [isValidCert_empty h0] at h
        exact h.symm
    · intro h; rw [isValidCert_of_invalid h]

theorem isValidCert_refines_spec_witness :
    sampleEnv.Stat "" = false ∧
      ((isValidCert sampleEnv "s3://bucket/ca.crt").2 = "" ↔
        (isValidCert sampleEnv "s3://bucket/ca.crt").1 = false) :=
  ⟨by decide, (isValidCert_refines_spec sampleEnv "s3://bucket/ca.crt").2.2.2 (by decide)⟩

/-! ## Idempotence -/

/-- C8: for a document whose certificate map holds each key once, running
`validate` again on the document left by a first run (same environment, same
range order) ends with the same result, and the certificate map and the
namespaces after the second run are those after the first run; and for every
`v`, if `isValidCert v = (true, p)` then `isValidCert p = (true, p)`. -/
theorem validate_idempotent (e : Env) (s : state) (hwf : s.Certificates.WF) :
    (validate e (validate e s).s).result = (validate e s).result ∧
      (validate e (validate e s).s).s.Certificates = (validate e s).s.Certificates ∧
      (validate e (validate e s).s).s.Namespaces = (validate e s).s.Namespaces ∧
      ∀ v p, isValidCert e v = (true, p) → isValidCert e p = (true, p) := by
  have h1 := validate_s e s hwf
  refine ⟨by rw [h1], by rw [h1, h1], by rw [h1, h1], ?_⟩
  intro v p h
  have hv : (isValidCert e v).1 = true := by rw [h]
  have := isValidCert_of_valid hv
  rw [this] at h
  simp only [Prod.mk.injEq, true_and] at h
  subst h
  exact this

theorem validate_idempotent_witness :
    acceptedState.Certificates.WF ∧
      (validate sampleEnv acceptedState).result = Result.returned true "" ∧
      (validate sampleEnv (validate sampleEnv acceptedState).s).result =
        (validate sampleEnv acceptedState).result :=
  ⟨by decide, by decide, (validate_idempotent sampleEnv acceptedState (by decide)).1⟩

/-! ## Namespaces -/

/-- C9, as stated, fails: the settings and certificate checks pass, `nsOverride`
is empty and namespace `beta` has both intents true, yet `validate` returns the
invalid-TLS message for namespace `alpha`, visited first, and not the
conflicting-intent message for any namespace. -/
theorem conflict_check_preempted :
    validateSettings mixedEnv mixedState = none ∧
      (validateCertificates mixedEnv mixedState).1 = none ∧ mixedEnv.nsOverride = "" ∧
      ("beta", conflictNamespace) ∈ mixedState.Namespaces.entries ∧
      conflictNamespace.InstallTiller = true ∧ conflictNamespace.UseTiller = true ∧
      (validate mixedEnv mixedState).result = Result.returned false
        "ERROR: namespaces validation failed  -- some certs/keys are not valid for Tiller TLS in namespace [ alpha ]." ∧
      ∀ K : String, (validate mixedEnv mixedState).result ≠ Result.returned false
        ("ERROR: namespaces validation failed -- installTiller and useTiller can't be used together for namespace [ " ++ K ++ " ]") := by
  have hres : (validate mixedEnv mixedState).result = Result.returned false
      "ERROR: namespaces validation failed  -- some certs/keys are not valid for Tiller TLS in namespace [ alpha ]." := by
    decide
  refine ⟨by decide, by decide, rfl, by decide, rfl, rfl, hres, ?_⟩
  intro K h
  rw [hres] at h
  simp only [Result.returned.injEq, true_and] at h
  exact conflict_ne_tls K "alpha" h.symm

/-- C9, amended: when the settings and certificate checks pass, `nsOverride` is
empty and some namespace has both InstallTiller and UseTiller true, `validate`
returns false with a namespaces message naming a namespace K' of the document:
either the conflicting-intent message, K' having both intents true, or the
invalid-TLS message, K' being a namespace that installs Tiller with TLS enabled
and a credential reference that `isValidCert` rejects.  It is the
conflicting-intent message whenever no namespace of the document fails that TLS
check. -/
theorem validate_conflicting_intent (e : Env) (s : state) (hset : validateSettings e s = none)
    (hcert : (validateCertificates e s).1 = none) (hns : e.nsOverride = "")
    (K : String) (ns : Namespace) (hmem : (K, ns) ∈ s.Namespaces.entries)
    (hi : ns.InstallTiller = true) (hu : ns.UseTiller = true) :
    (∃ K' ns', (K', ns') ∈ s.Namespaces.entries ∧
      ((ns'.InstallTiller = true ∧ ns'.UseTiller = true ∧
          (validate e s).result = Result.returned false
            ("ERROR: namespaces validation failed -- installTiller and useTiller can't be used together for namespace [ " ++ K' ++ " ]")) ∨
        (ns'.InstallTiller = true ∧ ns'.UseTiller = false ∧ tillerTLSEnabled e K' = true ∧
          ¬ ((isValidCert e ns'.CaCert).1 = true ∧ (isValidCert e ns'.ClientCert).1 = true ∧
            (isValidCert e ns'.ClientKey).1 = true ∧ (isValidCert e ns'.TillerCert).1 = true ∧
            (isValidCert e ns'.TillerKey).1 = true) ∧
          (validate e s).result = Result.returned false
            ("ERROR: namespaces validation failed  -- some certs/keys are not valid for Tiller TLS in namespace [ " ++ K' ++ " ].")))) ∧
      ((∀ p ∈ s.Namespaces.entries,
          ¬ (p.2.InstallTiller = true ∧ p.2.UseTiller = false ∧ tillerTLSEnabled e p.1 = true ∧
            ¬ ((isValidCert e p.2.CaCert).1 = true ∧ (isValidCert e p.2.ClientCert).1 = true ∧
              (isValidCert e p.2.ClientKey).1 = true ∧ (isValidCert e p.2.TillerCert).1 = true ∧
              (isValidCert e p.2.TillerKey).1 = true))) →
        ∃ K' ns', (K', ns') ∈ s.Namespaces.entries ∧ ns'.InstallTiller = true ∧
          ns'.UseTiller = true ∧
          (validate e s).result = Result.returned false
            ("ERROR: namespaces validation failed -- installTiller and useTiller can't be used together for namespace [ " ++ K' ++ " ]")) := by
  have hne : s.Namespaces.entries ≠ [] := List.ne_nil_of_mem hmem
  have hloop := validateNamespaces_of_entries hns hne
  have hbody : (namespaceBody e K ns).1 ≠ none := by
    intro h
    have := (namespaceBody_fail_iff e K ns _).2 (Or.inl ⟨hi, hu, rfl⟩)
    rw [h] at this
    cases this
  have hfail : ∃ msg, (namespaceLoop e s.Namespaces.entries).1 = some msg := by
    cases h : (namespaceLoop e s.Namespaces.entries).1 with
    | some msg => exact ⟨msg, rfl⟩
    | none => exact absurd ((namespaceLoop_none_iff e _).1 h (K, ns) hmem) hbody
  obtain ⟨msg, hmsg⟩ := hfail
  have hval := validate_of_namespaces_fail hset hcert (by rw [hloop]; exact hmsg)
  obtain ⟨pre, K', ns', post, hl, _, hb⟩ := namespaceLoop_fail_split _ hmsg
  have hmem' : (K', ns') ∈ s.Namespaces.entries := by rw [hl]; simp
  have key := (namespaceBody_fail_iff e K' ns' msg).1 hb
  constructor
  · refine ⟨K', ns', hmem', ?_⟩
    rcases key with ⟨h1, h2, h3⟩ | ⟨h1, h2, h3, h4, h5⟩
    · exact Or.inl ⟨h1, h2, by rw [hval, h3]⟩
    · exact Or.inr ⟨h1, h2, h3, h4, by rw [hval, h5]⟩
  · intro hno
    rcases key with ⟨h1, h2, h3⟩ | ⟨h1, h2, h3, h4, _⟩
    · exact ⟨K', ns', hmem', h1, h2, by rw [hval, h3]⟩
    · exact absurd ⟨h1, h2, h3, h4⟩ (hno (K', ns') hmem')

theorem validate_conflicting_intent_witness :
    ∃ K' ns', (K', ns') ∈ conflictState.Namespaces.entries ∧ ns'.InstallTiller = true ∧
      ns'.UseTiller = true ∧
      (validate sampleEnv conflictState).result = Result.returned false
        ("ERROR: namespaces validation failed -- installTiller and useTiller can't be used together for namespace [ " ++ K' ++ " ]") :=
  (validate_conflicting_intent sampleEnv conflictState (by decide) (by decide) rfl "beta"
    conflictNamespace (by decide) rfl rfl).2 (by decide)

/-- C10, as stated, fails: namespace `alpha` of the validated document installs
Tiller, does not use a pre-installed one, has its five credential fields set
and all of them rejected by `isValidCert`, yet `validate` does not fail: the
process-wide state holds no namespace `alpha`, so `tillerTLSEnabled` is false
and the run ends in the no-apps exit. -/
theorem tls_check_reads_process_state :
    validateSettings sampleEnv tlsOnlyState = none ∧
      (validateCertificates sampleEnv tlsOnlyState).1 = none ∧ sampleEnv.nsOverride = "" ∧
      tlsOnlyState.Namespaces.entries = [("alpha", tlsNamespace)] ∧
      tlsNamespace.InstallTiller = true ∧ tlsNamespace.UseTiller = false ∧
      (tlsNamespace.CaCert ≠ "" ∧ tlsNamespace.ClientCert ≠ "" ∧ tlsNamespace.ClientKey ≠ "" ∧
        tlsNamespace.TillerCert ≠ "" ∧ tlsNamespace.TillerKey ≠ "") ∧
      (isValidCert sampleEnv tlsNamespace.CaCert).1 = false ∧
      (validate sampleEnv tlsOnlyState).result = Result.exited 0 := by
  decide

/-- C10, amended: let the settings and certificate checks pass, `nsOverride` be
empty, the namespaces map hold each key once, and K be a namespace of the
validated document such that every namespace visited before it passes its
checks.  Then `validate` returns the invalid-TLS message naming K if and only
if K has InstallTiller true, UseTiller false, `tillerTLSEnabled K` holds (the
five credential fields of the namespace stored under K in the process-wide
state are non-empty) and `isValidCert` rejects at least one of the five fields
of K.  When the process-wide state has the namespaces of the validated
document, `tillerTLSEnabled K` says that the five fields of K are non-empty.
A namespace without conflicting intents that has UseTiller true, or
InstallTiller false, or `tillerTLSEnabled` false passes its checks. -/
theorem tls_check_iff (e : Env) (s : state) (hset : validateSettings e s = none)
    (hcert : (validateCertificates e s).1 = none) (hns : e.nsOverride = "")
    (hwf : s.Namespaces.WF) (pre post : List (String × Namespace)) (K : String) (ns : Namespace)
    (hsplit : s.Namespaces.entries = pre ++ (K, ns) :: post)
    (hpre : ∀ p ∈ pre, (namespaceBody e p.1 p.2).1 = none) :
    ((validate e s).result = Result.returned false
        ("ERROR: namespaces validation failed  -- some certs/keys are not valid for Tiller TLS in namespace [ " ++ K ++ " ].") ↔
      ns.InstallTiller = true ∧ ns.UseTiller = false ∧ tillerTLSEnabled e K = true ∧
        ¬ ((isValidCert e ns.CaCert).1 = true ∧ (isValidCert e ns.ClientCert).1 = true ∧
          (isValidCert e ns.ClientKey).1 = true ∧ (isValidCert e ns.TillerCert).1 = true ∧
          (isValidCert e ns.TillerKey).1 = true)) ∧
      (e.s.Namespaces = s.Namespaces →
        (tillerTLSEnabled e K = true ↔
          ns.CaCert ≠ "" ∧ ns.TillerCert ≠ "" ∧ ns.TillerKey ≠ "" ∧ ns.ClientCert ≠ "" ∧
            ns.ClientKey ≠ "")) ∧
      (¬ (ns.InstallTiller = true ∧ ns.UseTiller = true) →
        (ns.UseTiller = true ∨ ns.InstallTiller = false ∨ tillerTLSEnabled e K = false) →
          (namespaceBody e K ns).1 = none) := by
  have hne : s.Namespaces.entries ≠ [] := by rw [hsplit]; simp
  have hloop := validateNamespaces_of_entries hns hne
  have hpre' : (namespaceLoop e pre).1 = none := (namespaceLoop_none_iff e pre).2 hpre
  have hnd : (pre.map Prod.fst ++ K :: post.map Prod.fst).Nodup := by
    have := hwf
    unfold GoMap.WF GoMap.keys at this
    rw [hsplit] at this
    simpa using this
  have hKpre : K ∉ pre.map Prod.fst := fun h =>
    (List.nodup_append.1 hnd).2.2 h (List.mem_cons_self _ _)
  have hKpost : K ∉ post.map Prod.fst :=
    (List.nodup_cons.1 (List.nodup_append.1 hnd).2.1).1
  refine ⟨⟨?_, ?_⟩, ?_, ?_⟩
  · intro h
    rcases validate_failed_cases h with h | ⟨_, h⟩ | ⟨_, _, h⟩ | ⟨_, _, _, h⟩ | ⟨_, _, _, _, h⟩
    · rw [hset] at h; cases h
    · rw [hcert] at h; cases h
    · rw [hloop, hsplit, namespaceLoop_append pre _ hpre'] at h
      cases hb : (namespaceBody e K ns).1 with
      | some m =>
        rw [namespaceLoop_cons_fail post hb] at h
        simp only [Option.some.injEq] at h
        subst h
        rcases (namespaceBody_fail_iff e K ns _).1 hb with ⟨_, _, h3⟩ | ⟨h1, h2, h3, h4, _⟩
        · exact absurd h3.symm (conflict_ne_tls K K)
        · exact ⟨h1, h2, h3, h4⟩
      | none =>
        exfalso
        rw [namespaceLoop_cons_pass post hb] at h
        obtain ⟨_, K', ns', post', hl, _, hb'⟩ := namespaceLoop_fail_split post h
        have hK' : K' ∈ post.map Prod.fst := by rw [hl]; simp
        rcases (namespaceBody_fail_iff e K' ns' _).1 hb' with ⟨_, _, h3⟩ | ⟨_, _, _, _, h5⟩
        · exact conflict_ne_tls K' K h3.symm
        · rw [tls_msg_inj h5] at hKpost
          exact hKpost hK'
    · have := validateRepos_label h
      simp [HasPrefix, String.data_append, List.isPrefixOf] at this
    · have := validateApps_label h
      simp [HasPrefix, String.data_append, List.isPrefixOf] at this
  · rintro ⟨h1, h2, h3, h4⟩
    have hb := (namespaceBody_fail_iff e K ns _).2 (Or.inr ⟨h1, h2, h3, h4, rfl⟩)
    have hl : (validateNamespaces e s).1 = some
        ("ERROR: namespaces validation failed  -- some certs/keys are not valid for Tiller TLS in namespace [ " ++ K ++ " ].") := by
      rw [hloop, hsplit, namespaceLoop_append pre _ hpre', namespaceLoop_cons_fail post hb]
    rw [validate_of_namespaces_fail hset hcert hl]
  · intro hsame
    have hlook : e.s.Namespaces.lookup K = some ns := by
      rw [hsame]
      unfold GoMap.lookup
      rw [hsplit]
      exact lookup_split pre post hKpre
    rw [tillerTLSEnabled_iff, hlook]
    simp
  · intro hnc hor
    cases hb : (namespaceBody e K ns).1 with
    | none => rfl
    | some m =>
      exfalso
      rcases (namespaceBody_fail_iff e K ns m).1 hb with ⟨h1, h2, _⟩ | ⟨h1, h2, h3, _, _⟩
      · exact hnc ⟨h1, h2⟩
      · rcases hor with h | h | h
        · rw [h] at h2; cases h2
        · rw [h] at h1; cases h1
        · rw [h] at h3; cases h3

theorem tls_check_iff_witness :
    (validate tlsEnv tlsOnlyState).result = Result.returned false
      ("ERROR: namespaces validation failed  -- some certs/keys are not valid for Tiller TLS in namespace [ " ++ "alpha" ++ " ].") :=
  (tls_check_iff tlsEnv tlsOnlyState (by decide) (by decide) rfl (by decide) [] [] "alpha"
    tlsNamespace rfl (by simp)).1.2 (by decide)

/-! ## Traces -/

theorem certLoop_trace (e : Env) :
    ∀ (l : List (String × String)) (m : GoMap String),
      ∀ ev ∈ (certLoop e l m).2.2, ∃ v, ev = Event.isValidCert v
  | [], m => by simp [certLoop]
  | (key, value) :: rest, m => by
    unfold certLoop
    cases hr : (isValidCert e value).1 with
    | false => simp [hr]
    | true =>
      simp only [hr]
      intro ev hev
      simp only [Bool.not_true, Bool.false_eq_true, if_false, List.mem_cons] at hev
      rcases hev with rfl | hev
      · exact ⟨value, rfl⟩
      · exact certLoop_trace e rest _ ev hev

theorem validateCertificates_trace (e : Env) (s : state) :
    ∀ ev ∈ (validateCertificates e s).2.2,
      (∃ v, ev = Event.isValidCert v) ∨ ∃ line, ev = Event.log line := by
  intro ev hev
  by_cases hu : s.Settings.ClusterURI = ""
  · rw [validateCertificates_of_no_cluster hu] at hev
    split_ifs at hev
    · simp at hev
    · simp at hev; exact Or.inr ⟨_, hev⟩
  · by_cases hm : s.Certificates.lookup "caCrt" = none ∨ s.Certificates.lookup "caKey" = none
    · rw [validateCertificates_of_missing hu hm] at hev; simp at hev
    · rw [not_or] at hm
      rw [validateCertificates_of_present hu hm.1 hm.2] at hev
      exact Or.inl (certLoop_trace e _ _ ev hev)

theorem namespaceBody_trace (e : Env) (k : String) (ns : Namespace) :
    ∀ ev ∈ (namespaceBody e k ns).2,
      (∃ v, ev = Event.isValidCert v) ∨ ∃ line, ev = Event.log line := by
  intro ev hev
  simp only [namespaceBody] at hev
  split_ifs at hev
  all_goals simp only [List.mem_cons, List.mem_append, List.mem_singleton, List.not_mem_nil,
    or_false] at hev
  all_goals
    first
      | exact Or.inr ⟨_, hev⟩
      | (rcases hev with h | h | h | h | h <;> exact Or.inl ⟨_, h⟩)
      | (rcases hev with (h | h | h | h | h) | h <;>
          first
            | exact Or.inl ⟨_, h⟩
            | exact Or.inr ⟨_, h⟩)

theorem namespaceLoop_trace (e : Env) :
    ∀ l : List (String × Namespace), ∀ ev ∈ (namespaceLoop e l).2,
      (∃ v, ev = Event.isValidCert v) ∨ ∃ line, ev = Event.log line
  | [] => by simp [namespaceLoop]
  | (k, ns) :: rest => by
    intro ev hev
    cases hb : (namespaceBody e k ns).1 with
    | some msg =>
      rw [namespaceLoop_cons_fail rest hb] at hev
      exact namespaceBody_trace e k ns ev hev
    | none =>
      rw [namespaceLoop_cons_pass rest hb] at hev
      rcases List.mem_append.1 hev with h | h
      · exact namespaceBody_trace e k ns ev h
      · exact namespaceLoop_trace e rest ev h

theorem validateNamespaces_trace (e : Env) (s : state) :
    ∀ ev ∈ (validateNamespaces e s).2,
      (∃ v, ev = Event.isValidCert v) ∨ ∃ line, ev = Event.log line := by
  intro ev hev
  unfold validateNamespaces at hev
  split_ifs at hev
  · simp at hev
  · exact namespaceLoop_trace e _ ev hev
  · simp at hev; exact Or.inr ⟨_, hev⟩

theorem appLoop_trace (e : Env) (s : state) :
    ∀ (l : List (String × Option release)) (names : Registry),
      ∀ ev ∈ (appLoop e s l names).2, ∃ label, ev = Event.validateRelease label
  | [], _ => by simp [appLoop]
  | (appLabel, r) :: rest, names => by
    unfold appLoop
    cases hv : (e.validateRelease appLabel r names s).1.1 with
    | false => simp [hv]
    | true =>
      simp only [hv]
      intro ev hev
      simp only [Bool.not_true, Bool.false_eq_true, if_false, List.mem_cons] at hev
      rcases hev with rfl | hev
      · exact ⟨appLabel, rfl⟩
      · exact appLoop_trace e s rest _ ev hev

theorem validateApps_trace (e : Env) (s : state) :
    ∀ ev ∈ (validateApps e s).2,
      (∃ label, ev = Event.validateRelease label) ∨ ∃ line, ev = Event.log line := by
  intro ev hev
  unfold validateApps at hev
  split_ifs at hev
  · simp at hev; exact Or.inr ⟨_, hev⟩
  · rcases hl : appLoop e s s.Apps.entries (some []) with ⟨r, t⟩
    rw [hl] at hev
    have : ev ∈ t := by cases r <;> simpa using hev
    exact Or.inl (appLoop_trace e s _ _ ev (by rw [hl]; exact this))

/-- Every effect of `validate` is an effect of its certificates, namespaces or
apps block. -/
theorem validate_trace_mem (e : Env) (s : state) :
    ∀ ev ∈ (validate e s).trace,
      ev ∈ (validateCertificates e s).2.2 ∨ ev ∈ (validateNamespaces e s).2 ∨
        ev ∈ (validateApps e { s with Certificates := (validateCertificates e s).2.1 }).2 := by
  intro ev hev
  cases h0 : validateSettings e s with
  | some m => rw [validate_of_settings_fail h0] at hev; simp at hev
  | none =>
    cases h1 : (validateCertificates e s).1 with
    | some m => rw [validate_of_certificates_fail h0 h1] at hev; exact Or.inl hev
    | none =>
      cases h2 : (validateNamespaces e s).1 with
      | some m =>
        rw [validate_of_namespaces_fail h0 h1 h2] at hev
        rcases List.mem_append.1 hev with h | h
        · exact Or.inl h
        · exact Or.inr (Or.inl h)
      | none =>
        cases h3 : validateRepos e s with
        | some m =>
          rw [validate_of_repos_fail h0 h1 h2 h3] at hev
          rcases List.mem_append.1 hev with h | h
          · exact Or.inl h
          · exact Or.inr (Or.inl h)
        | none =>
          rw [validate_of_repos_pass h0 h1 h2 h3] at hev
          simp only [List.mem_append] at hev
          rcases hev with (h | h) | h
          · exact Or.inl h
          · exact Or.inr (Or.inl h)
          · exact Or.inr (Or.inr h)


/-! ## More on messages and the repositories block -/

/-- A message that carries the label of another block does not carry the
label of the namespaces block. -/
theorem not_namespaces_of_other {msg : String}
    (h : HasPrefix msg "ERROR: settings validation failed" = true ∨
      HasPrefix msg "ERROR: certifications validation failed" = true ∨
      HasPrefix msg "ERROR: repos validation failed" = true ∨
      HasPrefix msg "ERROR: apps validation failed" = true) :
    HasPrefix msg "ERROR: namespaces validation failed" = false := by
  rcases h with h | h | h | h <;>
    (obtain ⟨t, ht⟩ := (HasPrefix_iff _ _).1 h
     simp [HasPrefix, ht, List.isPrefixOf])

theorem validateRepos_of_entries {e : Env} {s : state} (hne : s.HelmRepos.entries ≠ []) :
    validateRepos e s = repoLoop e s.HelmRepos.entries := by
  unfold validateRepos
  have h1 : s.HelmRepos ≠ none := by
    intro h; apply hne; rw [h]; rfl
  have h2 : s.HelmRepos.len ≠ 0 := by
    intro h; apply hne; exact List.length_eq_zero.1 h
  simp [h1, h2]

theorem validateRepos_of_empty {e : Env} {s : state} (h : s.HelmRepos = none ∨ s.HelmRepos.len = 0) :
    validateRepos e s =
      some "ERROR: repos validation failed -- I need at least one helm repo to work with!" := by
  unfold validateRepos
  rw [if_pos h]
  rfl

theorem GoMap.entries_eq_nil_iff {V : Type} (m : GoMap V) :
    m.entries = [] ↔ m = none ∨ m.len = 0 := by
  cases m with
  | none => simp [GoMap.entries]
  | some l => simp [GoMap.entries, GoMap.len]

theorem repoLoop_none_iff (e : Env) :
    ∀ l : List (String × repo), repoLoop e l = none ↔ ∀ p ∈ l, e.ParseRequestURI p.2.Url = true
  | [] => by simp [repoLoop]
  | (k, v) :: rest => by
    unfold repoLoop
    cases hp : e.ParseRequestURI v.Url with
    | false => simp [hp]
    | true => simp [hp, repoLoop_none_iff e rest]

theorem repoLoop_msg {e : Env} {msg : String} :
    ∀ l : List (String × repo), repoLoop e l = some msg →
      ∃ pre k v post, l = pre ++ (k, v) :: post ∧
        (∀ p ∈ pre, e.ParseRequestURI p.2.Url = true) ∧ e.ParseRequestURI v.Url = false ∧
        msg = "ERROR: repos validation failed -- repo [" ++ k ++ " ] must have a valid URL."
  | [], h => by simp [repoLoop] at h
  | (k, v) :: rest, h => by
    unfold repoLoop at h
    cases hp : e.ParseRequestURI v.Url with
    | false =>
      simp [hp] at h
      refine ⟨[], k, v, rest, rfl, by simp, hp, ?_⟩
      rw [← h, String.append_assoc]
      rfl
    | true =>
      simp [hp] at h
      obtain ⟨pre, k', v', post, hl, hpre, hv, hmsg⟩ := repoLoop_msg rest h
      refine ⟨(k, v) :: pre, k', v', post, by rw [hl]; rfl, ?_, hv, hmsg⟩
      intro p hp'
      rcases List.mem_cons.1 hp' with rfl | hp'
      · exact hp
      · exact hpre p hp'

/-- The repository loop reads the keys and URLs only. -/
theorem repoLoop_congr (e : Env) :
    ∀ l l' : List (String × repo),
      l.map (fun p => (p.1, p.2.Url)) = l'.map (fun p => (p.1, p.2.Url)) →
        repoLoop e l = repoLoop e l'
  | [], [], _ => rfl
  | [], _ :: _, h => by simp at h
  | _ :: _, [], h => by simp at h
  | (k, v) :: rest, (k', v') :: rest', h => by
    simp only [List.map_cons, List.cons.injEq, Prod.mk.injEq] at h
    obtain ⟨⟨hk, hv⟩, hrest⟩ := h
    unfold repoLoop
    rw [hk, hv, repoLoop_congr e rest rest' hrest]

/-! ## The process-wide TLS switch, the namespace override, repositories and the no-apps exit -/

/-- C11: `tillerTLSEnabled name` is true if and only if the process-wide state
holds a namespace under `name` whose CaCert, TillerCert, TillerKey, ClientCert
and ClientKey are all non-empty; it is false when one of the five is empty,
when no namespace is stored under `name`, and when the namespaces map is nil. -/
theorem tillerTLSEnabled_process_state (e : Env) (name : String) :
    (tillerTLSEnabled e name = true ↔
      ∃ ns, e.s.Namespaces.lookup name = some ns ∧ ns.CaCert ≠ "" ∧ ns.TillerCert ≠ "" ∧
        ns.TillerKey ≠ "" ∧ ns.ClientCert ≠ "" ∧ ns.ClientKey ≠ "") ∧
      (∀ ns, e.s.Namespaces.lookup name = some ns →
        (ns.CaCert = "" ∨ ns.TillerCert = "" ∨ ns.TillerKey = "" ∨ ns.ClientCert = "" ∨
          ns.ClientKey = "") → tillerTLSEnabled e name = false) ∧
      (e.s.Namespaces.lookup name = none → tillerTLSEnabled e name = false) ∧
      (e.s.Namespaces = none → tillerTLSEnabled e name = false) := by
  have hnone : e.s.Namespaces.lookup name = none → tillerTLSEnabled e name = false := by
    intro h
    cases ht : tillerTLSEnabled e name with
    | false => rfl
    | true =>
      have := (tillerTLSEnabled_iff e name).1 ht
      rw [h] at this
      exact absurd rfl this.1
  refine ⟨?_, ?_, hnone, ?_⟩
  · rw [tillerTLSEnabled_iff]
    cases hl : e.s.Namespaces.lookup name with
    | none => simp [Namespace.zero]
    | some ns => simp
  · intro ns hl hor
    cases ht : tillerTLSEnabled e name with
    | false => rfl
    | true =>
      have := (tillerTLSEnabled_iff e name).1 ht
      rw [hl] at this
      simp only [Option.getD_some] at this
      obtain ⟨h1, h2, h3, h4, h5⟩ := this
      rcases hor with h | h | h | h | h
      · exact absurd h h1
      · exact absurd h h2
      · exact absurd h h3
      · exact absurd h h4
      · exact absurd h h5
  · intro h
    apply hnone
    rw [h]
    rfl

theorem tillerTLSEnabled_process_state_witness :
    tillerTLSEnabled tlsEnv "alpha" = true ∧ tillerTLSEnabled tlsEnv "beta" = false ∧
      tillerTLSEnabled sampleEnv "alpha" = false :=
  ⟨by decide, (tillerTLSEnabled_process_state tlsEnv "beta").2.2.1 (by decide), (tillerTLSEnabled_process_state sampleEnv "alpha").2.2.2 rfl⟩

/-- C12: let the settings and certificate checks pass.  If `nsOverride` is empty
and the Namespaces map is nil or empty, `validate` returns `(false, "ERROR:
namespaces validation failed -- I need at least one namespace to work with!")`.
If `nsOverride` is non-empty, the namespaces block only logs, whatever the map
holds: no failure of `validate` carries the namespaces label, and every call
of `isValidCert` that `validate` makes is one of the certificates block. -/
theorem namespace_override_decides (e : Env) (s : state) (hset : validateSettings e s = none)
    (hcert : (validateCertificates e s).1 = none) :
    (e.nsOverride = "" → (s.Namespaces = none ∨ s.Namespaces.len = 0) →
        (validate e s).result = Result.returned false
          "ERROR: namespaces validation failed -- I need at least one namespace to work with!") ∧
      (e.nsOverride ≠ "" →
        validateNamespaces e s = (none,
          [Event.log ("INFO: ns-override is used to override all namespaces with [ " ++
            e.nsOverride ++ " ] Skipping defined namespaces validation.")]) ∧
        (∀ msg, (validate e s).result = Result.returned false msg →
          HasPrefix msg "ERROR: namespaces validation failed" = false) ∧
        (∀ v, Event.isValidCert v ∈ (validate e s).trace →
          Event.isValidCert v ∈ (validateCertificates e s).2.2)) := by
  constructor
  · intro hns hempty
    have hn : (validateNamespaces e s).1 = some
        "ERROR: namespaces validation failed -- I need at least one namespace to work with!" := by
      unfold validateNamespaces
      rw [if_pos hns, if_pos hempty]
      rfl
    rw [validate_of_namespaces_fail hset hcert hn]
  · intro hns
    have hn : validateNamespaces e s = (none,
        [Event.log ("INFO: ns-override is used to override all namespaces with [ " ++
          e.nsOverride ++ " ] Skipping defined namespaces validation.")]) := by
      unfold validateNamespaces
      rw [if_neg hns]
    refine ⟨hn, ?_, ?_⟩
    · intro msg h
      rcases validate_failed_cases h with h | ⟨_, h⟩ | ⟨_, _, h⟩ | ⟨_, _, _, h⟩ | ⟨_, _, _, _, h⟩
      · rw [hset] at h; cases h
      · rw [hcert] at h; cases h
      · rw [hn] at h; cases h
      · exact not_namespaces_of_other (Or.inr (Or.inr (Or.inl (validateRepos_label h))))
      · exact not_namespaces_of_other (Or.inr (Or.inr (Or.inr (validateApps_label h))))
    · intro v hv
      rcases validate_trace_mem e s _ hv with h | h | h
      · exact h
      · rw [hn] at h; simp at h
      · rcases validateApps_trace e _ _ h with ⟨l, hl⟩ | ⟨l, hl⟩ <;> cases hl

theorem namespace_override_decides_witness :
    (validate sampleEnv noNamespacesState).result = Result.returned false
        "ERROR: namespaces validation failed -- I need at least one namespace to work with!" ∧
      (∀ msg, (validate overrideEnv mixedState).result = Result.returned false msg →
        HasPrefix msg "ERROR: namespaces validation failed" = false) :=
  ⟨(namespace_override_decides sampleEnv noNamespacesState (by decide) (by decide)).1 rfl (Or.inl rfl),
    ((namespace_override_decides overrideEnv mixedState (by decide) (by decide)).2 (by decide)).2.1⟩

/-- C13, as stated, fails: the only repository of the document has the Url
`/not/a/url`, an absolute path and not an absolute URL; `url.ParseRequestURI`
accepts it, the repositories block passes and `validate` returns `(true, "")`
instead of the invalid-URL failure naming the repository. -/
theorem path_repo_url_accepted :
    validateSettings requestEnv pathRepoState = none ∧
      (validateCertificates requestEnv pathRepoState).1 = none ∧
      (validateNamespaces requestEnv pathRepoState).1 = none ∧
      pathRepoState.HelmRepos = some [("local", ⟨"", "", "/not/a/url"⟩)] ∧
      absoluteURL "/not/a/url" = false ∧ absoluteURL "not-a-url" = false ∧
      validateRepos requestEnv pathRepoState = none ∧
      (validate requestEnv pathRepoState).result = Result.returned true "" := by
  decide

/-- C13, amended: let the settings, certificate and namespace checks pass.  If
the HelmRepos map is nil or empty, `validate` returns `(false, "ERROR: repos
validation failed -- I need at least one helm repo to work with!")`.
Otherwise, if `url.ParseRequestURI` rejects the Url of some entry, `validate`
returns `(false, "ERROR: repos validation failed -- repo [K ] must have a valid
URL.")` where K is the key of the first entry in range order whose Url is
rejected.  The repositories block passes if and only if the map is non-empty
and `url.ParseRequestURI` accepts every Url, and its outcome is the same for a
map with the same keys and URLs and other usernames and passwords. -/
theorem repos_checked_by_url (e : Env) (s : state) (hset : validateSettings e s = none)
    (hcert : (validateCertificates e s).1 = none) (hns : (validateNamespaces e s).1 = none) :
    ((s.HelmRepos = none ∨ s.HelmRepos.len = 0) →
        (validate e s).result = Result.returned false
          "ERROR: repos validation failed -- I need at least one helm repo to work with!") ∧
      (¬ (s.HelmRepos = none ∨ s.HelmRepos.len = 0) →
        (∃ p ∈ s.HelmRepos.entries, e.ParseRequestURI p.2.Url = false) →
        ∃ pre K v post, s.HelmRepos.entries = pre ++ (K, v) :: post ∧
          (∀ p ∈ pre, e.ParseRequestURI p.2.Url = true) ∧ e.ParseRequestURI v.Url = false ∧
          (validate e s).result = Result.returned false
            ("ERROR: repos validation failed -- repo [" ++ K ++ " ] must have a valid URL.")) ∧
      (validateRepos e s = none ↔
        ¬ (s.HelmRepos = none ∨ s.HelmRepos.len = 0) ∧
          ∀ p ∈ s.HelmRepos.entries, e.ParseRequestURI p.2.Url = true) ∧
      (∀ s' : state,
        (s'.HelmRepos = none ↔ s.HelmRepos = none) →
        s'.HelmRepos.entries.map (fun p => (p.1, p.2.Url)) =
          s.HelmRepos.entries.map (fun p => (p.1, p.2.Url)) →
        validateRepos e s' = validateRepos e s) := by
  refine ⟨?_, ?_, ?_, ?_⟩
  · intro h
    rw [validate_of_repos_fail hset hcert hns (validateRepos_of_empty h)]
  · intro hne ⟨p, hp, hbad⟩
    have hne' : s.HelmRepos.entries ≠ [] := fun h => hne ((GoMap.entries_eq_nil_iff _).1 h)
    have hr := validateRepos_of_entries (e := e) hne'
    cases hl : repoLoop e s.HelmRepos.entries with
    | none =>
      rw [(repoLoop_none_iff e _).1 hl p hp] at hbad
      cases hbad
    | some msg =>
      obtain ⟨pre, K, v, post, hsplit, hpre, hv, hmsg⟩ := repoLoop_msg _ hl
      refine ⟨pre, K, v, post, hsplit, hpre, hv, ?_⟩
      rw [validate_of_repos_fail hset hcert hns (by rw [hr, hl]), hmsg]
  · by_cases hempty : s.HelmRepos = none ∨ s.HelmRepos.len = 0
    · rw [validateRepos_of_empty hempty]
      simp [hempty]
    · have hne' : s.HelmRepos.entries ≠ [] := fun h => hempty ((GoMap.entries_eq_nil_iff _).1 h)
      rw [validateRepos_of_entries hne', repoLoop_none_iff]
      simp [hempty]
  · intro s' hnil hmap
    have hlen : s'.HelmRepos.len = s.HelmRepos.len := by
      have := congrArg List.length hmap
      simpa [GoMap.len] using this
    unfold validateRepos
    rw [repoLoop_congr e _ _ hmap]
    by_cases hempty : s.HelmRepos = none ∨ s.HelmRepos.len = 0
    · have hempty' : s'.HelmRepos = none ∨ s'.HelmRepos.len = 0 := by
        rcases hempty with h | h
        · exact Or.inl (hnil.2 h)
        · exact Or.inr (hlen.trans h)
      rw [if_pos hempty, if_pos hempty']
    · have hempty' : ¬ (s'.HelmRepos = none ∨ s'.HelmRepos.len = 0) := by
        rintro (h | h)
        · exact hempty (Or.inl (hnil.1 h))
        · exact hempty (Or.inr (hlen.symm.trans h))
      rw [if_neg hempty, if_neg hempty']

theorem repos_checked_by_url_witness :
    ∃ pre K v post, badRepoState.HelmRepos.entries = pre ++ (K, v) :: post ∧
      (∀ p ∈ pre, sampleEnv.ParseRequestURI p.2.Url = true) ∧
      sampleEnv.ParseRequestURI v.Url = false ∧
      (validate sampleEnv badRepoState).result = Result.returned false
        ("ERROR: repos validation failed -- repo [" ++ K ++ " ] must have a valid URL.") :=
  (repos_checked_by_url sampleEnv badRepoState (by decide) (by decide) (by decide)).2.1 (by decide)
    ⟨("local", ⟨"user", "secret", "not-a-url"⟩), by decide, by decide⟩

/-- C14: if the settings, certificate, namespace and repository checks all pass
and the Apps map is nil, `validate` ends in `os.Exit(0)` and never calls the
per-release checker.  Conversely, if `validate` ends in an exit, the code is 0,
the four checks passed and Apps is nil; and with Apps nil a failure of any of
the four earlier blocks is what `validate` returns. -/
theorem no_apps_exit (e : Env) (s : state) :
    (validateSettings e s = none → (validateCertificates e s).1 = none →
        (validateNamespaces e s).1 = none → validateRepos e s = none → s.Apps = none →
        (validate e s).result = Result.exited 0 ∧
          (∀ label, Event.validateRelease label ∉ (validate e s).trace)) ∧
      (∀ code, (validate e s).result = Result.exited code →
        code = 0 ∧ validateSettings e s = none ∧ (validateCertificates e s).1 = none ∧
          (validateNamespaces e s).1 = none ∧ validateRepos e s = none ∧ s.Apps = none) ∧
      (s.Apps = none →
        (∀ msg, validateSettings e s = some msg →
          (validate e s).result = Result.returned false msg) ∧
        (∀ msg, validateSettings e s = none → (validateCertificates e s).1 = some msg →
          (validate e s).result = Result.returned false msg) ∧
        (∀ msg, validateSettings e s = none → (validateCertificates e s).1 = none →
          (validateNamespaces e s).1 = some msg →
          (validate e s).result = Result.returned false msg) ∧
        (∀ msg, validateSettings e s = none → (validateCertificates e s).1 = none →
          (validateNamespaces e s).1 = none → validateRepos e s = some msg →
          (validate e s).result = Result.returned false msg)) := by
  refine ⟨?_, ?_, ?_⟩
  · intro h0 h1 h2 h3 ha
    have hv := validate_of_repos_pass h0 h1 h2 h3
    have happs : validateApps e { s with Certificates := (validateCertificates e s).2.1 } =
        (Result.exited 0,
          [Event.log "INFO: You have not specified any apps. I have nothing to do.  Horraayyy!."]) := by
      unfold validateApps
      rw [if_pos (show ({ s with Certificates := (validateCertificates e s).2.1 } : state).Apps =
        none from ha)]
    refine ⟨by rw [hv, happs], ?_⟩
    intro label hmem
    rcases validate_trace_mem e s _ hmem with h | h | h
    · rcases validateCertificates_trace e s _ h with ⟨_, hh⟩ | ⟨_, hh⟩ <;> cases hh
    · rcases validateNamespaces_trace e s _ h with ⟨_, hh⟩ | ⟨_, hh⟩ <;> cases hh
    · rw [happs] at h; simp at h
  · intro code h
    cases h0 : validateSettings e s with
    | some m => rw [validate_of_settings_fail h0] at h; cases h
    | none =>
      cases h1 : (validateCertificates e s).1 with
      | some m => rw [validate_of_certificates_fail h0 h1] at h; cases h
      | none =>
        cases h2 : (validateNamespaces e s).1 with
        | some m => rw [validate_of_namespaces_fail h0 h1 h2] at h; cases h
        | none =>
          cases h3 : validateRepos e s with
          | some m => rw [validate_of_repos_fail h0 h1 h2 h3] at h; cases h
          | none =>
            rw [validate_of_repos_pass h0 h1 h2 h3] at h
            simp only at h
            unfold validateApps at h
            split_ifs at h with ha
            · simp only [Result.exited.injEq] at h
              exact ⟨h.symm, rfl, rfl, rfl, rfl, ha⟩
            · split at h <;> cases h
  · intro _
    refine ⟨?_, ?_, ?_, ?_⟩
    · intro msg h0; rw [validate_of_settings_fail h0]
    · intro msg h0 h1; rw [validate_of_certificates_fail h0 h1]
    · intro msg h0 h1 h2; rw [validate_of_namespaces_fail h0 h1 h2]
    · intro msg h0 h1 h2 h3; rw [validate_of_repos_fail h0 h1 h2 h3]

theorem no_apps_exit_witness :
    (validate sampleEnv noAppsState).result = Result.exited 0 ∧
      (∀ label, Event.validateRelease label ∉ (validate sampleEnv noAppsState).trace) :=
  (no_apps_exit sampleEnv noAppsState).1 (by decide) (by decide) (by decide) (by decide) rfl

/-! ## The apps block -/

theorem appLoop_reject {e : Env} {s : state} {appLabel : String} {r : Option release}
    {names : Registry} (rest : List (String × Option release))
    (h : (e.validateRelease appLabel r names s).1.1 = false) :
    appLoop e s ((appLabel, r) :: rest) names =
      (some ("ERROR: apps validation failed -- for app [" ++ appLabel ++ " ]. " ++
        (e.validateRelease appLabel r names s).1.2), [Event.validateRelease appLabel]) := by
  unfold appLoop
  simp [h]

theorem appLoop_accept {e : Env} {s : state} {appLabel : String} {r : Option release}
    {names : Registry} (rest : List (String × Option release))
    (h : (e.validateRelease appLabel r names s).1.1 = true) :
    appLoop e s ((appLabel, r) :: rest) names =
      ((appLoop e s rest (e.validateRelease appLabel r names s).2).1,
        Event.validateRelease appLabel ::
          (appLoop e s rest (e.validateRelease appLabel r names s).2).2) := by
  conv_lhs => unfold appLoop
  simp [h]

theorem appLoop_append {e : Env} {s : state} (l : List (String × Option release)) :
    ∀ (pre : List (String × Option release)) (names : Registry),
      acceptsAll e s pre names = true →
        appLoop e s (pre ++ l) names =
          ((appLoop e s l (namesAfter e s pre names)).1,
            pre.map (fun p => Event.validateRelease p.1) ++
              (appLoop e s l (namesAfter e s pre names)).2)
  | [], names, _ => rfl
  | (appLabel, r) :: pre, names, h => by
    simp only [acceptsAll, Bool.and_eq_true] at h
    rw [List.cons_append, appLoop_accept _ h.1, appLoop_append l pre _ h.2]
    rfl

theorem appLoop_acceptsAll {e : Env} {s : state} (l : List (String × Option release))
    (names : Registry) (h : acceptsAll e s l names = true) :
    appLoop e s l names = (none, l.map (fun p => Event.validateRelease p.1)) := by
  have := appLoop_append (e := e) (s := s) [] l names h
  simpa [appLoop] using this

theorem acceptsAll_false_split {e : Env} {s : state} :
    ∀ (l : List (String × Option release)) (names : Registry),
      acceptsAll e s l names = false →
        ∃ pre L r post, l = pre ++ (L, r) :: post ∧ acceptsAll e s pre names = true ∧
          (e.validateRelease L r (namesAfter e s pre names) s).1.1 = false
  | [], _, h => by simp [acceptsAll] at h
  | (appLabel, r) :: rest, names, h => by
    cases hv : (e.validateRelease appLabel r names s).1.1 with
    | false => exact ⟨[], appLabel, r, rest, rfl, rfl, hv⟩
    | true =>
      simp only [acceptsAll, hv, Bool.true_and] at h
      obtain ⟨pre, L, r', post, hl, hpre, hrej⟩ := acceptsAll_false_split rest _ h
      refine ⟨(appLabel, r) :: pre, L, r', post, by rw [hl]; rfl, ?_, hrej⟩
      simp only [acceptsAll, hv, Bool.true_and]
      exact hpre

theorem validateApps_of_nil {e : Env} {s : state} (h : s.Apps = none) :
    validateApps e s = (Result.exited 0,
      [Event.log "INFO: You have not specified any apps. I have nothing to do.  Horraayyy!."]) := by
  unfold validateApps
  rw [if_pos h]

theorem validateApps_of_reject {e : Env} {s : state} {msg : String} (h : s.Apps ≠ none)
    (hl : (appLoop e s s.Apps.entries (some [])).1 = some msg) :
    validateApps e s = (Result.returned false msg, (appLoop e s s.Apps.entries (some [])).2) := by
  unfold validateApps
  rw [if_neg h]
  rcases hloop : appLoop e s s.Apps.entries (some []) with ⟨r, t⟩
  rw [hloop] at hl
  simp only at hl
  subst hl
  rfl

theorem validateApps_of_accept {e : Env} {s : state} (h : s.Apps ≠ none)
    (hl : (appLoop e s s.Apps.entries (some [])).1 = none) :
    validateApps e s = (Result.returned true "", (appLoop e s s.Apps.entries (some [])).2) := by
  unfold validateApps
  rw [if_neg h]
  rcases hloop : appLoop e s s.Apps.entries (some []) with ⟨r, t⟩
  rw [hloop] at hl
  simp only at hl
  subst hl
  rfl

/-- C15, as stated, fails: the four earlier checks pass and the Apps map is
present but empty, yet `validate` returns `(true, "")` and does not exit,
whereas the same document with a nil Apps map ends in `os.Exit(0)`. -/
theorem empty_apps_returns_true :
    validateSettings sampleEnv emptyAppsState = none ∧
      (validateCertificates sampleEnv emptyAppsState).1 = none ∧
      (validateNamespaces sampleEnv emptyAppsState).1 = none ∧
      validateRepos sampleEnv emptyAppsState = none ∧
      emptyAppsState.Apps = some [] ∧
      (validate sampleEnv emptyAppsState).result = Result.returned true "" ∧
      (validate sampleEnv emptyAppsState).result ≠ Result.exited 0 ∧
      (validate sampleEnv { emptyAppsState with Apps := none }).result = Result.exited 0 := by
  decide

/-- C15, amended: when the settings, certificate, namespace and repository
checks all pass, a nil Apps map makes `validate` end in `os.Exit(0)`, and an
Apps map that is present but empty makes it return `(true, "")` without
exiting; in both cases validation does not fail and the per-release checker is
never called. -/
theorem absent_or_empty_apps (e : Env) (s : state) (h0 : validateSettings e s = none)
    (h1 : (validateCertificates e s).1 = none) (h2 : (validateNamespaces e s).1 = none)
    (h3 : validateRepos e s = none) :
    (s.Apps = none → (validate e s).result = Result.exited 0) ∧
      (s.Apps = some [] → (validate e s).result = Result.returned true "") ∧
      (s.Apps.len = 0 →
        (validate e s).result.failed = false ∧
          ∀ label, Event.validateRelease label ∉ (validate e s).trace) := by
  have hv := validate_of_repos_pass h0 h1 h2 h3
  have hnil : s.Apps = none → validateApps e { s with Certificates := (validateCertificates e s).2.1 } =
      (Result.exited 0,
        [Event.log "INFO: You have not specified any apps. I have nothing to do.  Horraayyy!."]) :=
    fun h => validateApps_of_nil h
  have hempty : s.Apps = some [] →
      validateApps e { s with Certificates := (validateCertificates e s).2.1 } =
        (Result.returned true "", []) := by
    intro h
    unfold validateApps
    simp [h, GoMap.entries, appLoop]
  refine ⟨fun h => by rw [hv, hnil h], fun h => by rw [hv, hempty h], ?_⟩
  intro hlen
  have hcases : s.Apps = none ∨ s.Apps = some [] := by
    cases ha : s.Apps with
    | none => exact Or.inl rfl
    | some l =>
      rw [ha] at hlen
      cases l with
      | nil => exact Or.inr rfl
      | cons a l => simp [GoMap.len, GoMap.entries] at hlen
  constructor
  · rcases hcases with h | h
    · rw [hv, hnil h]; rfl
    · rw [hv, hempty h]; rfl
  · intro label hmem
    rcases validate_trace_mem e s _ hmem with h | h | h
    · rcases validateCertificates_trace e s _ h with ⟨_, hh⟩ | ⟨_, hh⟩ <;> cases hh
    · rcases validateNamespaces_trace e s _ h with ⟨_, hh⟩ | ⟨_, hh⟩ <;> cases hh
    · rcases hcases with h' | h'
      · rw [hnil h'] at h; simp at h
      · rw [hempty h'] at h; simp at h

theorem absent_or_empty_apps_witness :
    (validate sampleEnv noAppsState).result = Result.exited 0 ∧
      (validate sampleEnv emptyAppsState).result = Result.returned true "" :=
  ⟨(absent_or_empty_apps sampleEnv noAppsState (by decide) (by decide) (by decide) (by decide)).1 rfl,
    (absent_or_empty_apps sampleEnv emptyAppsState (by decide) (by decide) (by decide) (by decide)).2.1 rfl⟩

/-- C16: let the first four checks pass and the Apps map be non-nil, and let
`s1` be the document handed to the checker.  If the checker, called on the
apps in range order with the registry threaded through, accepts the apps of
`pre` and rejects the next one, labelled L, then `validate` returns `(false,
"ERROR: apps validation failed -- for app [" ++ L ++ " ]. " ++ M)` with M the
message of that call, and the checker calls made are those for `pre` and for L,
none for a later app.  If the checker accepts every app, `validate` returns
`(true, "")` after one call per app; and one of the two cases always holds. -/
theorem first_rejected_release (e : Env) (s s1 : state) (h0 : validateSettings e s = none)
    (h1 : (validateCertificates e s).1 = none) (h2 : (validateNamespaces e s).1 = none)
    (h3 : validateRepos e s = none) (ha : s.Apps ≠ none)
    (hs1 : s1 = { s with Certificates := (validateCertificates e s).2.1 }) :
    (∀ pre L r post, s.Apps.entries = pre ++ (L, r) :: post →
        acceptsAll e s1 pre (some []) = true →
        (e.validateRelease L r (namesAfter e s1 pre (some [])) s1).1.1 = false →
        (validate e s).result = Result.returned false
            ("ERROR: apps validation failed -- for app [" ++ L ++ " ]. " ++
              (e.validateRelease L r (namesAfter e s1 pre (some [])) s1).1.2) ∧
          (validateApps e s1).2 =
            pre.map (fun p => Event.validateRelease p.1) ++ [Event.validateRelease L]) ∧
      (acceptsAll e s1 s.Apps.entries (some []) = true →
        (validate e s).result = Result.returned true "" ∧
          (validateApps e s1).2 = s.Apps.entries.map (fun p => Event.validateRelease p.1)) ∧
      (acceptsAll e s1 s.Apps.entries (some []) = false →
        ∃ pre L r post, s.Apps.entries = pre ++ (L, r) :: post ∧
          acceptsAll e s1 pre (some []) = true ∧
          (e.validateRelease L r (namesAfter e s1 pre (some [])) s1).1.1 = false) := by
  have hv := validate_of_repos_pass h0 h1 h2 h3
  rw [← hs1] at hv
  have ha1 : s1.Apps ≠ none := by rw [hs1]; exact ha
  have hent : s1.Apps.entries = s.Apps.entries := by rw [hs1]
  refine ⟨?_, ?_, ?_⟩
  · intro pre L r post hsplit hpre hrej
    have hloop : appLoop e s1 s1.Apps.entries (some []) =
        (some ("ERROR: apps validation failed -- for app [" ++ L ++ " ]. " ++
          (e.validateRelease L r (namesAfter e s1 pre (some [])) s1).1.2),
          pre.map (fun p => Event.validateRelease p.1) ++ [Event.validateRelease L]) := by
      rw [hent, hsplit, appLoop_append _ pre _ hpre, appLoop_reject post hrej]
    have happs := validateApps_of_reject ha1 (by rw [hloop])
    rw [hv, happs, hloop]
    exact ⟨rfl, rfl⟩
  · intro hall
    have hloop := appLoop_acceptsAll (e := e) (s := s1) s.Apps.entries (some []) hall
    rw [← hent] at hloop
    have happs := validateApps_of_accept ha1 (by rw [hloop])
    rw [hv, happs, hloop, hent]
    exact ⟨rfl, rfl⟩
  · intro hall
    exact acceptsAll_false_split _ _ hall

theorem first_rejected_release_witness :
    (validate pickyEnv threeAppsState).result = Result.returned false
        ("ERROR: apps validation failed -- for app [" ++ "db" ++ " ]. " ++ "chart not found") ∧
      (validateApps pickyEnv threeAppsState).2 =
        [Event.validateRelease "web", Event.validateRelease "db"] :=
  (first_rejected_release pickyEnv threeAppsState threeAppsState (by decide) (by decide) (by decide) (by decide)
    (by decide) rfl).1 [("web", some ⟨"web", "staging"⟩)] "db" (some ⟨"broken", "staging"⟩)
    [("cache", some ⟨"cache", "staging"⟩)] rfl (by decide) (by decide)

/-! ## The uniqueness registry -/

theorem lookup_setEntry_self {V : Type} (k : String) (v : V) :
    ∀ l : List (String × V), List.lookup k (GoMap.setEntry k v l) = some v
  | [] => by simp [GoMap.setEntry, List.lookup]
  | (k', v') :: rest => by
    unfold GoMap.setEntry
    by_cases hk : k' = k
    · rw [if_pos hk]; simp [List.lookup]
    · rw [if_neg hk]
      have : (k == k') = false := by simpa using fun h : k = k' => hk h.symm
      rw [List.lookup, this]
      exact lookup_setEntry_self k v rest

theorem lookup_setEntry_ne {V : Type} {k k' : String} (v : V) (h : k' ≠ k) :
    ∀ l : List (String × V), List.lookup k' (GoMap.setEntry k v l) = List.lookup k' l
  | [] => by
    have : (k' == k) = false := by simpa using h
    simp [GoMap.setEntry, List.lookup, this]
  | (k₀, v₀) :: rest => by
    unfold GoMap.setEntry
    by_cases hk : k₀ = k
    · rw [if_pos hk]
      have h1 : (k' == k) = false := by simpa using h
      have h2 : (k' == k₀) = false := by rw [hk]; exact h1
      simp [List.lookup, h1, h2]
    · rw [if_neg hk]
      by_cases hk' : k' = k₀
      · simp [List.lookup, hk']
      · have h2 : (k' == k₀) = false := by simpa using hk'
        simp only [List.lookup, h2]
        exact lookup_setEntry_ne v h rest

theorem GoMap.lookup_set_self {V : Type} {m : GoMap V} (h : m ≠ none) (k : String) (v : V) :
    (m.set k v).lookup k = some v := by
  cases m with
  | none => exact absurd rfl h
  | some l => exact lookup_setEntry_self k v l

theorem GoMap.lookup_set_ne {V : Type} (m : GoMap V) {k k' : String} (v : V) (h : k' ≠ k) :
    (m.set k v).lookup k' = m.lookup k' := by
  cases m with
  | none => rfl
  | some l => exact lookup_setEntry_ne v h l

theorem GoMap.set_ne_none {V : Type} {m : GoMap V} (h : m ≠ none) (k : String) (v : V) :
    m.set k v ≠ none := by
  cases m with
  | none => exact absurd rfl h
  | some l => simp [GoMap.set]

theorem register_ne_none {names : Registry} (h : names ≠ none) (ns name : String) :
    register names ns name ≠ none :=
  GoMap.set_ne_none h _ _

theorem registered_register {names : Registry} (h : names ≠ none) (ns name ns' name' : String) :
    registered (register names ns name) ns' name' = true ↔
      (registered names ns' name' = true ∨ (ns' = ns ∧ name' = name)) := by
  unfold registered register
  by_cases hns : ns' = ns
  · subst hns
    rw [GoMap.lookup_set_self h]
    simp only [Option.getD_some]
    cases hin : (names.lookup ns').getD none with
    | none =>
      by_cases hname : name' = name
      · subst hname
        simp [GoMap.set, GoMap.lookup, GoMap.entries, GoMap.setEntry, List.lookup]
      · have hb : (name' == name) = false := by simpa using hname
        simp [GoMap.set, GoMap.lookup, GoMap.entries, GoMap.setEntry, List.lookup, hb, hname]
    | some l =>
      by_cases hname : name' = name
      · subst hname
        have : GoMap.lookup (GoMap.set (some l : GoMap Bool) name' true) name' = some true :=
          GoMap.lookup_set_self (by simp) _ _
        simp [this]
      · have : GoMap.lookup (GoMap.set (some l : GoMap Bool) name true) name' =
            GoMap.lookup (some l : GoMap Bool) name' := GoMap.lookup_set_ne _ _ hname
        simp [this, hname]
  · rw [GoMap.lookup_set_ne _ _ hns]
    simp [hns]

theorem validateReleaseSpec_meets (e : Env) (h : e.validateRelease = validateReleaseSpec) :
    MeetsContract e := by
  intro appLabel r names s hnames
  rw [h]
  constructor
  · intro hreg
    simp [validateReleaseSpec, hreg]
  · intro hreg
    simp only [validateReleaseSpec, hreg, Bool.false_eq_true, if_false, true_and]
    exact ⟨register_ne_none hnames _ _, fun ns name => registered_register hnames _ _ _ _⟩


theorem contract_accepts_fresh {e : Env} (hc : MeetsContract e) (s : state) :
    ∀ (l : List (String × release)) (names : Registry), names ≠ none →
      (∀ p ∈ l, registered names p.2.Namespace p.2.Name = false) →
      (l.map (fun p => p.2.pair)).Nodup →
        acceptsAll e s (l.map (fun p => (p.1, some p.2))) names = true ∧
        namesAfter e s (l.map (fun p => (p.1, some p.2))) names ≠ none ∧
        ∀ ns name,
          registered (namesAfter e s (l.map (fun p => (p.1, some p.2))) names) ns name = true ↔
            (registered names ns name = true ∨ (ns, name) ∈ l.map (fun p => p.2.pair))
  | [], names, hn, _, _ => by simp [acceptsAll, namesAfter, hn]
  | (L, r) :: rest, names, hn, hfresh, hnd => by
    obtain ⟨hacc, hne, hreg⟩ := (hc L r names s hn).2 (hfresh (L, r) (List.mem_cons_self _ _))
    rw [List.map_cons, List.nodup_cons] at hnd
    have hfresh' : ∀ p ∈ rest,
        registered (e.validateRelease L (some r) names s).2 p.2.Namespace p.2.Name = false := by
      intro p hp
      cases hb : registered (e.validateRelease L (some r) names s).2 p.2.Namespace p.2.Name with
      | false => rfl
      | true =>
        exfalso
        rcases (hreg _ _).1 hb with h | ⟨h1, h2⟩
        · rw [hfresh p (List.mem_cons_of_mem _ hp)] at h; cases h
        · apply hnd.1
          have : r.pair = p.2.pair := by simp [release.pair, h1, h2]
          rw [this]
          exact List.mem_map.2 ⟨p, hp, rfl⟩
    obtain ⟨ih1, ih2, ih3⟩ := contract_accepts_fresh hc s rest _ hne hfresh' hnd.2
    refine ⟨?_, ih2, ?_⟩
    · simp only [List.map_cons, acceptsAll, hacc, Bool.true_and]
      exact ih1
    · intro ns name
      simp only [List.map_cons, namesAfter]
      rw [ih3, hreg, List.mem_cons]
      simp only [release.pair, Prod.mk.injEq]
      tauto

/-- A list with a repeated image has a first element whose image occurred
before. -/
theorem exists_first_repeat {α β : Type} (f : α → β) :
    ∀ l : List α, ¬ (l.map f).Nodup →
      ∃ pre x post, l = pre ++ x :: post ∧ (pre.map f).Nodup ∧ f x ∈ pre.map f := by
  intro l
  induction l using List.reverseRecOn with
  | nil => intro h; exact absurd List.nodup_nil h
  | append_singleton t a ih =>
    intro h
    by_cases ht : (t.map f).Nodup
    · refine ⟨t, a, [], rfl, ht, ?_⟩
      by_contra hmem
      apply h
      rw [List.map_append, List.map_singleton]
      refine List.Nodup.append ht (List.nodup_singleton _) ?_
      intro x hx hx'
      rw [List.mem_singleton] at hx'
      exact hmem (hx' ▸ hx)
    · obtain ⟨pre, x, post, hl, hnd, hx⟩ := ih ht
      exact ⟨pre, x, post ++ [a], by rw [hl]; simp, hnd, hx⟩

theorem validate_of_release_rejected {e : Env} {s : state}
    (h0 : validateSettings e s = none) (h1 : (validateCertificates e s).1 = none)
    (h2 : (validateNamespaces e s).1 = none) (h3 : validateRepos e s = none)
    (ha : s.Apps ≠ none) {pre post : List (String × Option release)} {L : String}
    {r : Option release} (hsplit : s.Apps.entries = pre ++ (L, r) :: post)
    (hacc : acceptsAll e { s with Certificates := (validateCertificates e s).2.1 } pre
      (some []) = true)
    (hrej : (e.validateRelease L r
      (namesAfter e { s with Certificates := (validateCertificates e s).2.1 } pre (some []))
      { s with Certificates := (validateCertificates e s).2.1 }).1.1 = false) :
    (validate e s).result = Result.returned false
      ("ERROR: apps validation failed -- for app [" ++ L ++ " ]. " ++
        (e.validateRelease L r
          (namesAfter e { s with Certificates := (validateCertificates e s).2.1 } pre (some []))
          { s with Certificates := (validateCertificates e s).2.1 }).1.2) := by
  have hloop : appLoop e { s with Certificates := (validateCertificates e s).2.1 }
      s.Apps.entries (some []) =
      (some ("ERROR: apps validation failed -- for app [" ++ L ++ " ]. " ++
        (e.validateRelease L r
          (namesAfter e { s with Certificates := (validateCertificates e s).2.1 } pre (some []))
          { s with Certificates := (validateCertificates e s).2.1 }).1.2),
        pre.map (fun p => Event.validateRelease p.1) ++ [Event.validateRelease L]) := by
    rw [hsplit, appLoop_append _ pre _ hacc, appLoop_reject post hrej]
  have happs := validateApps_of_reject
    (s := { s with Certificates := (validateCertificates e s).2.1 }) ha (by rw [hloop])
  rw [validate_of_repos_pass h0 h1 h2 h3, happs]

/-- C17: let the per-release checker meet its contract (`MeetsContract`), the
first four checks pass, and the Apps map, every label of which points to a
release, hold two different labels whose releases have the same namespace and
the same name.  Then `validate` returns false with an apps message naming a
label L that is visited after a label L' whose release has the same namespace
and name.  In every range order, the label named is the first one whose pair
was registered by an earlier release: the one visited second of the two when
no pair repeats before it. -/
theorem duplicate_release_rejected (e : Env) (s : state) (l : List (String × release)) (hc : MeetsContract e)
    (h0 : validateSettings e s = none) (h1 : (validateCertificates e s).1 = none)
    (h2 : (validateNamespaces e s).1 = none) (h3 : validateRepos e s = none)
    (happs : s.Apps = appsOf l)
    (A B : String) (ra rb : release) (hA : (A, ra) ∈ l) (hB : (B, rb) ∈ l) (hAB : A ≠ B)
    (hns : ra.Namespace = rb.Namespace) (hname : ra.Name = rb.Name) :
    (∃ pre L r post L' r' msg, l = pre ++ (L, r) :: post ∧ (L', r') ∈ pre ∧
        r'.Namespace = r.Namespace ∧ r'.Name = r.Name ∧
        (validate e s).result = Result.returned false
          ("ERROR: apps validation failed -- for app [" ++ L ++ " ]. " ++ msg)) ∧
      (∀ pre L r post, l = pre ++ (L, r) :: post →
        (pre.map (fun p => p.2.pair)).Nodup → r.pair ∈ pre.map (fun p => p.2.pair) →
        ∃ msg, (validate e s).result = Result.returned false
          ("ERROR: apps validation failed -- for app [" ++ L ++ " ]. " ++ msg)) := by
  have hsecond : ∀ pre L r post, l = pre ++ (L, r) :: post →
      (pre.map (fun p => p.2.pair)).Nodup → r.pair ∈ pre.map (fun p => p.2.pair) →
      ∃ msg, (validate e s).result = Result.returned false
        ("ERROR: apps validation failed -- for app [" ++ L ++ " ]. " ++ msg) := by
    intro pre L r post hl hnd hmem
    let s1 : state := { s with Certificates := (validateCertificates e s).2.1 }
    have hfresh : ∀ p ∈ pre, registered (some []) p.2.Namespace p.2.Name = false := by
      intro p _; rfl
    obtain ⟨hacc, hne, hreg⟩ := contract_accepts_fresh hc s1 pre (some []) (by simp) hfresh hnd
    have hdup : registered (namesAfter e s1 (pre.map (fun p => (p.1, some p.2))) (some []))
        r.Namespace r.Name = true := (hreg _ _).2 (Or.inr hmem)
    have hrej := (hc L r _ s1 hne).1 hdup
    have hent : s.Apps.entries =
        pre.map (fun p => (p.1, some p.2)) ++ (L, some r) :: post.map (fun p => (p.1, some p.2)) := by
      rw [happs, hl]
      simp [appsOf, GoMap.entries]
    have hnn : s.Apps ≠ none := by rw [happs]; simp [appsOf]
    exact ⟨_, validate_of_release_rejected h0 h1 h2 h3 hnn hent hacc hrej⟩
  refine ⟨?_, hsecond⟩
  have hnot : ¬ (l.map (fun p => p.2.pair)).Nodup := by
    intro hnd
    have := List.inj_on_of_nodup_map hnd hA hB (by simp [release.pair, hns, hname])
    rw [Prod.mk.injEq] at this
    exact hAB this.1
  obtain ⟨pre, ⟨L, r⟩, post, hl, hnd, hmem⟩ := exists_first_repeat _ l hnot
  obtain ⟨⟨L', r'⟩, hp, hpair⟩ := List.mem_map.1 hmem
  obtain ⟨msg, hres⟩ := hsecond pre L r post hl hnd hmem
  simp only [release.pair, Prod.mk.injEq] at hpair
  exact ⟨pre, L, r, post, L', r', msg, hl, hp, hpair.1, hpair.2, hres⟩

theorem duplicate_release_rejected_witness :
    ∃ msg, (validate specEnv duplicateState).result = Result.returned false
      ("ERROR: apps validation failed -- for app [" ++ "web-copy" ++ " ]. " ++ msg) :=
  (duplicate_release_rejected specEnv duplicateState duplicateApps (validateReleaseSpec_meets specEnv rfl)
    (by decide) (by decide) (by decide) (by decide) rfl "web" "web-copy" ⟨"frontend", "prod"⟩
    ⟨"frontend", "prod"⟩ (by decide) (by decide) (by decide) rfl rfl).2
    [("web", ⟨"frontend", "prod"⟩), ("db", ⟨"postgres", "prod"⟩)] "web-copy"
    ⟨"frontend", "prod"⟩ [] rfl (by decide) (by decide)

/-! ## What each block reads -/

theorem validateSettings_congr (e : Env) {s s' : state} (h : s'.Settings = s.Settings) :
    validateSettings e s' = validateSettings e s := by
  unfold validateSettings validateCluster validateSlack
  rw [h]

theorem validateCertificates_congr (e : Env) {s s' : state} (h : s'.Settings = s.Settings)
    (hc : s'.Certificates = s.Certificates) :
    validateCertificates e s' = validateCertificates e s := by
  unfold validateCertificates
  rw [h, hc]

theorem validateNamespaces_congr (e : Env) {s s' : state} (h : s'.Namespaces = s.Namespaces) :
    validateNamespaces e s' = validateNamespaces e s := by
  unfold validateNamespaces
  rw [h]

theorem validateRepos_congr (e : Env) {s s' : state} (h : s'.HelmRepos = s.HelmRepos) :
    validateRepos e s' = validateRepos e s := by
  unfold validateRepos
  rw [h]

theorem validateApps_result (e : Env) (s : state) :
    (∃ msg, (validateApps e s).1 = Result.returned false msg) ∨
      ((validateApps e s).1 = Result.returned true "" ∧ s.Apps ≠ none) ∨
      ((validateApps e s).1 = Result.exited 0 ∧ s.Apps = none) := by
  by_cases ha : s.Apps = none
  · exact Or.inr (Or.inr ⟨by rw [validateApps_of_nil ha], ha⟩)
  · cases hl : (appLoop e s s.Apps.entries (some [])).1 with
    | some msg => exact Or.inl ⟨msg, by rw [validateApps_of_reject ha hl]⟩
    | none => exact Or.inr (Or.inl ⟨by rw [validateApps_of_accept ha hl], ha⟩)

/-! ## The pipeline -/

theorem validate_result_eq_spec (e : Env) (s : state) : (validate e s).result = validateSpec e s := by
  unfold validateSpec firstFailure stageCheck
  cases h0 : validateSettings e s with
  | some m => rw [validate_of_settings_fail h0]
  | none =>
    simp only
    unfold firstFailure stageCheck
    cases h1 : (validateCertificates e s).1 with
    | some m => rw [validate_of_certificates_fail h0 h1]
    | none =>
      simp only
      unfold firstFailure stageCheck
      cases h2 : (validateNamespaces e s).1 with
      | some m => rw [validate_of_namespaces_fail h0 h1 h2]
      | none =>
        simp only
        unfold firstFailure stageCheck
        cases h3 : validateRepos e s with
        | some m => rw [validate_of_repos_fail h0 h1 h2 h3]
        | none =>
          simp only
          unfold firstFailure stageCheck
          rw [validate_of_repos_pass h0 h1 h2 h3]
          simp only
          rcases validateApps_result e { s with Certificates := (validateCertificates e s).2.1 }
            with ⟨msg, h⟩ | ⟨h, ha⟩ | ⟨h, ha⟩
          · rw [h]
          · have ha' : s.Apps ≠ none := ha
            rw [h]; simp [firstFailure, ha']
          · have ha' : s.Apps = none := ha
            rw [h]; simp [firstFailure, ha']

theorem stageCheck_label {e : Env} {s : state} {msg : String} :
    ∀ st : Stage, stageCheck e s st = some msg →
      HasPrefix msg ("ERROR: " ++ st.label ++ " validation failed") = true
  | .settings, h => validateSettings_label h
  | .certificates, h => validateCertificates_label h
  | .namespaces, h => validateNamespaces_label h
  | .repos, h => validateRepos_label h
  | .apps, h => by
    simp only [stageCheck] at h
    rcases validateApps_result e { s with Certificates := (validateCertificates e s).2.1 }
      with ⟨m, hm⟩ | ⟨hm, _⟩ | ⟨hm, _⟩
    · rw [hm] at h
      simp only [Option.some.injEq] at h
      subst h
      exact validateApps_label hm
    · rw [hm] at h; cases h
    · rw [hm] at h; cases h

theorem firstFailure_label {e : Env} {s : state} {st : Stage} {msg : String} :
    ∀ l : List Stage, firstFailure e s l = some (st, msg) →
      HasPrefix msg ("ERROR: " ++ st.label ++ " validation failed") = true
  | [], h => by simp [firstFailure] at h
  | st' :: rest, h => by
    unfold firstFailure at h
    cases hc : stageCheck e s st' with
    | none =>
      rw [hc] at h
      exact firstFailure_label rest h
    | some m =>
      rw [hc] at h
      simp only [Option.some.injEq, Prod.mk.injEq] at h
      obtain ⟨rfl, rfl⟩ := h
      exact stageCheck_label _ hc

theorem ne_empty_of_label {msg p : String} (h : HasPrefix msg ("ERROR: " ++ p) = true) :
    msg ≠ "" := by
  intro hm
  subst hm
  obtain ⟨t, ht⟩ := (HasPrefix_iff _ _).1 h
  simp [String.data_append] at ht

/-- C18: the result of `validate` is that of `validateSpec`, which runs the
checks of the five stages in the order settings, certificates, namespaces,
repos, apps and stops at the first that fails.  When `validate` returns false,
the message is non-empty and begins with `ERROR: `, the label of the earliest
failing stage and ` validation failed`; when it returns true the message is
empty; and the failure of a stage is returned for every document that agrees
on what that stage and the earlier ones read, whatever the later stages
read. -/
theorem validate_refines_pipeline (e : Env) (s : state) :
    (validate e s).result = validateSpec e s ∧
      (∀ msg, (validate e s).result = Result.returned false msg →
        msg ≠ "" ∧
        ∃ st, firstFailure e s
            [Stage.settings, Stage.certificates, Stage.namespaces, Stage.repos, Stage.apps] =
              some (st, msg) ∧
          HasPrefix msg ("ERROR: " ++ st.label ++ " validation failed") = true) ∧
      (∀ msg, (validate e s).result = Result.returned true msg → msg = "") ∧
      (∀ msg, validateSettings e s = some msg →
        ∀ s' : state, s'.Settings = s.Settings →
          (validate e s').result = Result.returned false msg) ∧
      (∀ msg, validateSettings e s = none → (validateCertificates e s).1 = some msg →
        ∀ s' : state, s'.Settings = s.Settings → s'.Certificates = s.Certificates →
          (validate e s').result = Result.returned false msg) ∧
      (∀ msg, validateSettings e s = none → (validateCertificates e s).1 = none →
        (validateNamespaces e s).1 = some msg →
        ∀ s' : state, s'.Settings = s.Settings → s'.Certificates = s.Certificates →
          s'.Namespaces = s.Namespaces →
          (validate e s').result = Result.returned false msg) ∧
      (∀ msg, validateSettings e s = none → (validateCertificates e s).1 = none →
        (validateNamespaces e s).1 = none → validateRepos e s = some msg →
        ∀ s' : state, s'.Settings = s.Settings → s'.Certificates = s.Certificates →
          s'.Namespaces = s.Namespaces → s'.HelmRepos = s.HelmRepos →
          (validate e s').result = Result.returned false msg) := by
  have hspec := validate_result_eq_spec e s
  refine ⟨hspec, ?_, ?_, ?_, ?_, ?_, ?_⟩
  · intro msg h
    rw [hspec] at h
    unfold validateSpec at h
    cases hf : firstFailure e s
        [Stage.settings, Stage.certificates, Stage.namespaces, Stage.repos, Stage.apps] with
    | none =>
      rw [hf] at h
      simp only at h
      split_ifs at h
      cases h
    | some p =>
      obtain ⟨st, m⟩ := p
      rw [hf] at h
      simp only [Result.returned.injEq, true_and] at h
      subst h
      have hl := firstFailure_label _ hf
      refine ⟨?_, st, rfl, hl⟩
      rw [String.append_assoc] at hl
      exact ne_empty_of_label hl
  · intro msg h
    rw [hspec] at h
    unfold validateSpec at h
    cases hf : firstFailure e s
        [Stage.settings, Stage.certificates, Stage.namespaces, Stage.repos, Stage.apps] with
    | none =>
      rw [hf] at h
      simp only at h
      split_ifs at h
      simp only [Result.returned.injEq, true_and] at h
      exact h.symm
    | some p =>
      rw [hf] at h
      simp at h
  · intro msg h0 s' hs
    rw [validate_of_settings_fail (by rw [validateSettings_congr e hs, h0])]
  · intro msg h0 h1 s' hs hc
    rw [validate_of_certificates_fail (by rw [validateSettings_congr e hs, h0])
      (by rw [validateCertificates_congr e hs hc, h1])]
  · intro msg h0 h1 h2 s' hs hc hn
    rw [validate_of_namespaces_fail (by rw [validateSettings_congr e hs, h0])
      (by rw [validateCertificates_congr e hs hc, h1])
      (by rw [validateNamespaces_congr e hn, h2])]
  · intro msg h0 h1 h2 h3 s' hs hc hn hr
    rw [validate_of_repos_fail (by rw [validateSettings_congr e hs, h0])
      (by rw [validateCertificates_congr e hs hc, h1])
      (by rw [validateNamespaces_congr e hn, h2])
      (by rw [validateRepos_congr e hr, h3])]

theorem validate_refines_pipeline_witness :
    (validate sampleEnv emptyState).result = Result.returned false
        "ERROR: settings validation failed -- no settings table provided in state file." ∧
      ∀ s' : state, s'.Settings = emptyState.Settings →
        (validate sampleEnv s').result = Result.returned false
          "ERROR: settings validation failed -- no settings table provided in state file." :=
  ⟨by decide, (validate_refines_pipeline sampleEnv emptyState).2.2.2.1 _ (by decide)⟩

/-! ## Pass conditions of the blocks -/

theorem lookup_eq_none_iff_not_mem {V : Type} (k : String) :
    ∀ l : List (String × V), List.lookup k l = none ↔ k ∉ l.map Prod.fst
  | [] => by simp [List.lookup]
  | (k', v) :: rest => by
    by_cases hk : k = k'
    · subst hk; simp [List.lookup]
    · have hb : (k == k') = false := by simpa using hk
      simp only [List.lookup, hb, List.map_cons, List.mem_cons, not_or]
      rw [lookup_eq_none_iff_not_mem k rest]
      exact ⟨fun h => ⟨hk, h⟩, fun h => h.2⟩

theorem GoMap.SameEntries.lookup_none {V : Type} {m m' : GoMap V} (h : GoMap.SameEntries m m')
    (k : String) : m.lookup k = none ↔ m'.lookup k = none := by
  unfold GoMap.lookup
  rw [lookup_eq_none_iff_not_mem, lookup_eq_none_iff_not_mem]
  exact not_congr (h.2.map Prod.fst).mem_iff

theorem GoMap.SameEntries.entries_ne_nil {V : Type} {m m' : GoMap V}
    (h : GoMap.SameEntries m m') : m.entries ≠ [] ↔ m'.entries ≠ [] := by
  have := h.2.length_eq
  constructor
  · intro hne hnil
    rw [hnil] at this
    exact hne (List.length_eq_zero.1 this)
  · intro hne hnil
    rw [hnil] at this
    exact hne (List.length_eq_zero.1 this.symm)

theorem GoMap.SameEntries.wf {V : Type} {m m' : GoMap V} (h : GoMap.SameEntries m m')
    (hwf : m.WF) : m'.WF := by
  unfold GoMap.WF GoMap.keys at hwf ⊢
  exact (h.2.map Prod.fst).nodup_iff.1 hwf

theorem validateCertificates_none_iff (e : Env) (s : state) :
    (validateCertificates e s).1 = none ↔
      (s.Settings.ClusterURI = "" ∨
        (s.Certificates.lookup "caCrt" ≠ none ∧ s.Certificates.lookup "caKey" ≠ none ∧
          ∀ p ∈ s.Certificates.entries, (isValidCert e p.2).1 = true)) := by
  by_cases hu : s.Settings.ClusterURI = ""
  · rw [validateCertificates_of_no_cluster hu]; simp [hu]
  · by_cases hm : s.Certificates.lookup "caCrt" = none ∨ s.Certificates.lookup "caKey" = none
    · rw [validateCertificates_of_missing hu hm]
      simp only [hu, false_or]
      constructor
      · intro h; cases h
      · rintro ⟨h2, h3, _⟩
        rcases hm with hm | hm
        · exact absurd hm h2
        · exact absurd hm h3
    · rw [not_or] at hm
      rw [validateCertificates_of_present hu hm.1 hm.2, certLoop_none_iff]
      simp [hu, hm.1, hm.2]

theorem validateNamespaces_none_iff (e : Env) (s : state) :
    (validateNamespaces e s).1 = none ↔
      (e.nsOverride ≠ "" ∨
        (s.Namespaces.entries ≠ [] ∧
          ∀ p ∈ s.Namespaces.entries, (namespaceBody e p.1 p.2).1 = none)) := by
  by_cases hns : e.nsOverride = ""
  · by_cases hne : s.Namespaces.entries = []
    · have hempty := (GoMap.entries_eq_nil_iff _).1 hne
      unfold validateNamespaces
      rw [if_pos hns, if_pos hempty]
      simp [hns, hne]
    · rw [validateNamespaces_of_entries hns hne, namespaceLoop_none_iff]
      simp [hns, hne]
  · unfold validateNamespaces
    rw [if_neg hns]
    simp [hns]

theorem validateRepos_none_iff (e : Env) (s : state) :
    validateRepos e s = none ↔
      (s.HelmRepos.entries ≠ [] ∧
        ∀ p ∈ s.HelmRepos.entries, e.ParseRequestURI p.2.Url = true) := by
  by_cases hne : s.HelmRepos.entries = []
  · rw [validateRepos_of_empty ((GoMap.entries_eq_nil_iff _).1 hne)]
    simp [hne]
  · rw [validateRepos_of_entries hne, repoLoop_none_iff]
    simp [hne]

theorem appLoop_none_iff (e : Env) (s : state) (l : List (String × Option release))
    (names : Registry) :
    (appLoop e s l names).1 = none ↔ acceptsAll e s l names = true := by
  constructor
  · intro h
    cases hacc : acceptsAll e s l names with
    | true => rfl
    | false =>
      exfalso
      obtain ⟨pre, L, r, post, hl, hpre, hrej⟩ := acceptsAll_false_split l names hacc
      rw [hl, appLoop_append _ pre _ hpre, appLoop_reject post hrej] at h
      cases h
  · intro h
    rw [appLoop_acceptsAll l names h]

theorem validateApps_failed_iff (e : Env) (s : state) :
    (validateApps e s).1.failed = true ↔
      (s.Apps ≠ none ∧ acceptsAll e s s.Apps.entries (some []) = false) := by
  by_cases ha : s.Apps = none
  · rw [validateApps_of_nil ha]
    simp [Result.failed, ha]
  · cases hl : (appLoop e s s.Apps.entries (some [])).1 with
    | none =>
      rw [validateApps_of_accept ha hl]
      have := (appLoop_none_iff e s _ _).1 hl
      simp [Result.failed, this]
    | some msg =>
      rw [validateApps_of_reject ha hl]
      have : acceptsAll e s s.Apps.entries (some []) = false := by
        cases hacc : acceptsAll e s s.Apps.entries (some []) with
        | false => rfl
        | true =>
          rw [(appLoop_none_iff e s _ _).2 hacc] at hl
          cases hl
      simp [Result.failed, ha, this]

theorem validate_failed_iff (e : Env) (s : state) :
    (validate e s).result.failed = true ↔
      (validateSettings e s ≠ none ∨ (validateCertificates e s).1 ≠ none ∨
        (validateNamespaces e s).1 ≠ none ∨ validateRepos e s ≠ none ∨
        (validateApps e { s with Certificates := (validateCertificates e s).2.1 }).1.failed =
          true) := by
  cases h0 : validateSettings e s with
  | some m => rw [validate_of_settings_fail h0]; simp [Result.failed]
  | none =>
    cases h1 : (validateCertificates e s).1 with
    | some m => rw [validate_of_certificates_fail h0 h1]; simp [Result.failed]
    | none =>
      cases h2 : (validateNamespaces e s).1 with
      | some m => rw [validate_of_namespaces_fail h0 h1 h2]; simp [Result.failed]
      | none =>
        cases h3 : validateRepos e s with
        | some m => rw [validate_of_repos_fail h0 h1 h2 h3]; simp [Result.failed]
        | none => rw [validate_of_repos_pass h0 h1 h2 h3]; simp

theorem validate_result_of_not_failed {e : Env} {s : state}
    (h : (validate e s).result.failed = false) :
    (validate e s).result = if s.Apps = none then Result.exited 0 else Result.returned true "" := by
  have hnot : ¬ (validate e s).result.failed = true := by rw [h]; simp
  rw [validate_failed_iff] at hnot
  simp only [not_or, not_not] at hnot
  obtain ⟨h0, h1, h2, h3, h4⟩ := hnot
  rw [validate_of_repos_pass h0 h1 h2 h3]
  rcases validateApps_result e { s with Certificates := (validateCertificates e s).2.1 }
    with ⟨msg, hm⟩ | ⟨hm, ha⟩ | ⟨hm, ha⟩
  · rw [hm] at h4; simp [Result.failed] at h4
  · have ha' : s.Apps ≠ none := ha
    simp only [hm, if_neg ha']
  · have ha' : s.Apps = none := ha
    simp only [hm, if_pos ha']

theorem acceptsAll_congr {e : Env} {s s' : state}
    (hchk : ∀ appLabel r names,
      (e.validateRelease appLabel r names s').1.1 = (e.validateRelease appLabel r names s).1.1 ∧
        (e.validateRelease appLabel r names s').2 = (e.validateRelease appLabel r names s).2) :
    ∀ (l : List (String × Option release)) (names : Registry),
      acceptsAll e s' l names = acceptsAll e s l names
  | [], _ => rfl
  | (appLabel, r) :: rest, names => by
    simp only [acceptsAll]
    rw [(hchk appLabel r names).1, (hchk appLabel r names).2, acceptsAll_congr hchk rest]

/-! ## Range order and the frame -/

/-- C19: let `s'` be the document `s` with its Certificates, Namespaces and
HelmRepos maps visited in other orders (same Apps order), the certificate map
holding each key once, and let the per-release checker give the same verdict
and registry on both.  Then `validate` fails on `s'` if and only if it fails on
`s`; and when it does not fail, the two results are equal. -/
theorem validate_order_independent (e : Env) (s s' : state) (hre : Reordered s s') (hwf : s.Certificates.WF)
    (hchk : ∀ appLabel r names,
      (e.validateRelease appLabel r names s').1.1 = (e.validateRelease appLabel r names s).1.1 ∧
        (e.validateRelease appLabel r names s').2 = (e.validateRelease appLabel r names s).2) :
    (validate e s').result.failed = (validate e s).result.failed ∧
      ((validate e s).result.failed = false → (validate e s').result = (validate e s).result) := by
  obtain ⟨_, hset, happs, hcert, hns, hrepo⟩ := hre
  have hwf' : s'.Certificates.WF := hcert.wf hwf
  have hs1 : ({ s with Certificates := (validateCertificates e s).2.1 } : state) = s := by
    rw [validateCertificates_map e s hwf]
  have hs1' : ({ s' with Certificates := (validateCertificates e s').2.1 } : state) = s' := by
    rw [validateCertificates_map e s' hwf']
  have h0 : validateSettings e s' = validateSettings e s := validateSettings_congr e hset
  have h1 : (validateCertificates e s').1 = none ↔ (validateCertificates e s).1 = none := by
    rw [validateCertificates_none_iff, validateCertificates_none_iff, hset]
    have : (∀ p ∈ s'.Certificates.entries, (isValidCert e p.2).1 = true) ↔
        ∀ p ∈ s.Certificates.entries, (isValidCert e p.2).1 = true :=
      forall_congr' fun p => by rw [hcert.2.mem_iff]
    exact or_congr Iff.rfl (and_congr (not_congr (hcert.lookup_none "caCrt").symm)
      (and_congr (not_congr (hcert.lookup_none "caKey").symm) this))
  have h2 : (validateNamespaces e s').1 = none ↔ (validateNamespaces e s).1 = none := by
    rw [validateNamespaces_none_iff, validateNamespaces_none_iff, ← hns.entries_ne_nil]
    have : (∀ p ∈ s'.Namespaces.entries, (namespaceBody e p.1 p.2).1 = none) ↔
        ∀ p ∈ s.Namespaces.entries, (namespaceBody e p.1 p.2).1 = none :=
      forall_congr' fun p => by rw [hns.2.mem_iff]
    rw [this]
  have h3 : validateRepos e s' = none ↔ validateRepos e s = none := by
    rw [validateRepos_none_iff, validateRepos_none_iff, ← hrepo.entries_ne_nil]
    have : (∀ p ∈ s'.HelmRepos.entries, e.ParseRequestURI p.2.Url = true) ↔
        ∀ p ∈ s.HelmRepos.entries, e.ParseRequestURI p.2.Url = true :=
      forall_congr' fun p => by rw [hrepo.2.mem_iff]
    rw [this]
  have h4 : (validateApps e s').1.failed = true ↔ (validateApps e s).1.failed = true := by
    rw [validateApps_failed_iff, validateApps_failed_iff, happs, acceptsAll_congr hchk]
  have hfail : (validate e s').result.failed = true ↔ (validate e s).result.failed = true := by
    rw [validate_failed_iff, validate_failed_iff, hs1, hs1', h0]
    exact or_congr Iff.rfl (or_congr (not_congr h1) (or_congr (not_congr h2)
      (or_congr (not_congr h3) h4)))
  have hfail' : (validate e s').result.failed = (validate e s).result.failed :=
    Bool.eq_iff_iff.2 hfail
  refine ⟨hfail', ?_⟩
  intro hok
  rw [validate_result_of_not_failed hok, validate_result_of_not_failed (hfail'.trans hok), happs]

theorem validate_order_independent_witness :
    (validate sampleEnv orderedState).result = Result.returned false
        "ERROR: namespaces validation failed -- installTiller and useTiller can't be used together for namespace [ beta ]" ∧
      (validate sampleEnv reversedState).result.failed =
        (validate sampleEnv orderedState).result.failed :=
  ⟨by decide, (validate_order_independent sampleEnv orderedState reversedState
    ⟨rfl, rfl, rfl, ⟨by decide, by decide⟩, ⟨by decide, by decide⟩, ⟨by decide, by decide⟩⟩
    (by decide) (fun _ _ _ => ⟨rfl, rfl⟩)).1⟩

/-- C20: `validate` leaves the document as it found it.  For a certificate map
that holds each key once, the document after the call is the document before
it, so the Certificates map has the same keys and the same value under every
key; the Namespaces map is never written; and the path that `isValidCert`
returns on success, which the write-back stores, is its input. -/
theorem validate_frame (e : Env) (s : state) :
    (s.Certificates.WF →
        (validate e s).s = s ∧
        (validate e s).s.Certificates.keys = s.Certificates.keys ∧
        ∀ k, (validate e s).s.Certificates.lookup k = s.Certificates.lookup k) ∧
      (validate e s).s.Namespaces = s.Namespaces ∧
      (∀ v p, isValidCert e v = (true, p) → p = v) := by
  refine ⟨?_, ?_, ?_⟩
  · intro hwf
    have h := validate_s e s hwf
    exact ⟨h, by rw [h], fun k => by rw [h]⟩
  · cases h0 : validateSettings e s with
    | some m => rw [validate_of_settings_fail h0]
    | none => rw [validate_s_of_settings_pass h0]
  · intro v p h
    have hv : (isValidCert e v).1 = true := by rw [h]
    rw [isValidCert_of_valid hv] at h
    simp only [Prod.mk.injEq, true_and] at h
    exact h.symm

theorem validate_frame_witness :
    acceptedState.Certificates.WF ∧
      (validate sampleEnv acceptedState).result = Result.returned true "" ∧
      (validate sampleEnv acceptedState).s = acceptedState :=
  ⟨by decide, by decide, ((validate_frame sampleEnv acceptedState).1 (by decide)).1⟩

end Helmsman
